import Mathlib

/-!
# Flow webhook: encrypted message exchange

A shallow embedding of the cryptographic protocol code of the Flow webhook
handlers (`basic/index.js`, `whatsapp-flow-handler/index.js`,
`lamda-handler.js`, `bookAppoitment/src/server.js`, `server copy.js`) and theorems
about it.

Conventions of the embedding:

* a Node `Buffer` is a `List Nat` whose entries are bytes (`BufferWF`);
* a JavaScript number that takes part in a bitwise operation is an `Int`,
  reduced with the explicit `ToInt32` / `ToUint8` conversions of the language;
* a JavaScript string is a `String` (a sequence of Unicode scalar values);
* a JavaScript exception is the `error` case of `Except JsError`;
* the primitives of the `crypto` module, of `JSON` and of the base64 / UTF-8
  codecs are fields of a `Platform` record passed to the code.
-/

namespace FlowWebhook

/-! ## Numbers and buffers -/

/-- A Node `Buffer`: a sequence of bytes. -/
abbrev Buffer := List Nat

/-- Every entry of the buffer is a byte. -/
def BufferWF (b : Buffer) : Prop := ∀ x ∈ b, x < 256

instance (b : Buffer) : Decidable (BufferWF b) := by
  unfold BufferWF; infer_instance

/-- ECMAScript `ToInt32`: reduction modulo 2^32 into the signed range. -/
def toInt32 (x : Int) : Int := (x + 2147483648) % 4294967296 - 2147483648

/-- ECMAScript `~x`: the operand is converted with `ToInt32`, and the result
is the one's complement of that 32-bit integer, `-x - 1`. -/
def bitNot (x : Int) : Int := -(toInt32 x) - 1

/-- ECMAScript `a ^ b` on two numbers that are bytes: both operands are
non-negative 32-bit integers, so the result is the bitwise xor of the two
naturals. -/
def bitXor (a b : Nat) : Int := ((a ^^^ b : Nat) : Int)

/-- ECMAScript `ToUint8`: what storing a number into a byte of a `Buffer`
keeps of it. -/
def toUint8 (x : Int) : Nat := (x % 256).toNat

/-- Node `Buffer.from(array)`: every entry of the array is stored as a byte. -/
def bufferFromArray (a : List Int) : Buffer := a.map toUint8

/-- Node `Buffer.alloc(n)`: `n` zero bytes. -/
def bufferAlloc (n : Nat) : Buffer := List.replicate n 0

/-- Node `buf[i] = v`: stores `ToUint8 v` at index `i` (no effect when `i` is
out of range). -/
def bufferSet (buf : Buffer) (i : Nat) (v : Int) : Buffer := buf.set i (toUint8 v)

/-- Node `buf[i]` for an index in range; `0` stands for `undefined` outside. -/
def bufferGet (buf : Buffer) (i : Nat) : Nat := buf.getD i 0

/-! ## Strings -/

/-- `String.prototype.replace(pattern, replacement)` with a string pattern:
only the first occurrence of the pattern, wherever it stands, is replaced. -/
def replaceFirstChars (pat rep : List Char) : List Char → List Char
  | [] => if pat = [] then rep else []
  | c :: cs =>
    if pat.isPrefixOf (c :: cs) then rep ++ (c :: cs).drop pat.length
    else c :: replaceFirstChars pat rep cs

/-- `s.replace(pat, rep)` on strings. -/
def replaceFirst (s pat rep : String) : String :=
  ⟨replaceFirstChars pat.data rep.data s.data⟩

/-- The UTF-8 encoding of one Unicode scalar value. -/
def utf8EncodeChar (c : Char) : List Nat :=
  let n := c.toNat
  if n < 128 then [n]
  else if n < 2048 then [192 + n / 64, 128 + n % 64]
  else if n < 65536 then [224 + n / 4096, 128 + (n / 64) % 64, 128 + n % 64]
  else [240 + n / 262144, 128 + (n / 4096) % 64, 128 + (n / 64) % 64, 128 + n % 64]

/-- Node `Buffer.from(s, "utf-8")` (also what `cipher.update(s, "utf-8")` and
`hmac.update(s)` read): the UTF-8 bytes of the string. -/
def utf8Bytes (s : String) : Buffer := s.data.flatMap utf8EncodeChar

/-- A lowercase hexadecimal digit. -/
def isLowerHexDigit (c : Char) : Bool :=
  ('0'.toNat ≤ c.toNat && c.toNat ≤ '9'.toNat) || ('a'.toNat ≤ c.toNat && c.toNat ≤ 'f'.toNat)

/-- What `hmac.digest('hex')` returns for SHA-256: 64 lowercase hexadecimal
digits. -/
structure HexDigest where
  hex : String
  length_eq : hex.data.length = 64
  all_hex : hex.data.all isLowerHexDigit = true

/-! ## Values, exceptions and the platform -/

/-- A JSON value, as `JSON.parse` returns it. Numbers are carried as integers:
no number takes part in what the handlers decide. -/
inductive Json where
  | null
  | bool (b : Bool)
  | num (n : Int)
  | str (s : String)
  | arr (items : List Json)
  | obj (fields : List (String × Json))

/-- A JavaScript value read from a property: `none` is `undefined`. -/
abbrev JsValue := Option Json

/-- Property access `v.key` on a value that is neither `null` nor `undefined`:
the field of an object, `undefined` for everything else (the keys read by the
handlers are own properties of no primitive or array). -/
def Json.prop (v : Json) (key : String) : JsValue :=
  match v with
  | .obj fields => fields.lookup key
  | _ => none

/-- Strict equality `v === "literal"`. -/
def JsValue.isString (v : JsValue) (lit : String) : Bool :=
  match v with
  | some (.str s) => s == lit
  | _ => false

/-- JavaScript truthiness of a value. -/
def JsValue.truthy (v : JsValue) : Bool :=
  match v with
  | none => false
  | some .null => false
  | some (.bool b) => b
  | some (.num n) => n != 0
  | some (.str s) => s != ""
  | some (.arr _) => true
  | some (.obj _) => true

/-- Truthiness of an environment variable or header: `undefined` and the empty
string are falsy. -/
def strTruthy (v : Option String) : Bool :=
  match v with
  | none => false
  | some s => s != ""

/-- An exception raised by a library primitive (the `crypto` module, `JSON`,
`Buffer`). -/
inductive LibError where
  /-- `crypto.timingSafeEqual` on buffers of different byte length. -/
  | rangeError
  /-- `JSON.parse` on a text that is not JSON. -/
  | syntaxError
  /-- an argument of the wrong type, or a property read on `null`/`undefined`. -/
  | typeError
  /-- an OpenSSL failure: key loading, RSA decryption, cipher set-up, tag check. -/
  | cryptoError (code : String)
deriving DecidableEq, Repr

/-- A thrown JavaScript value. -/
inductive JsError where
  /-- an exception of a library primitive. -/
  | lib (e : LibError)
  /-- `new FlowEndpointException(statusCode, message)`. -/
  | flowEndpointException (statusCode : Nat) (message : String)
  /-- `new Error(message)`. -/
  | error (message : String)
deriving DecidableEq, Repr

deriving instance DecidableEq for Except

/-- The object `crypto.createPrivateKey` returns. -/
structure KeyObject where
  handle : Nat
deriving DecidableEq, Repr

/-- The library primitives the handlers call. -/
structure Platform where
  /-- `crypto.createPrivateKey({ key, passphrase })`. -/
  createPrivateKey : String → String → Except LibError KeyObject
  /-- `crypto.privateDecrypt` with `RSA_PKCS1_OAEP_PADDING` and `oaepHash: "sha256"`. -/
  privateDecrypt : KeyObject → Buffer → Except LibError Buffer
  /-- `createDecipheriv("aes-128-gcm", key, iv)`, `setAuthTag(tag)`, `update(body)`,
  `final()`: key, iv, ciphertext, tag. -/
  aesGcmDecrypt : Buffer → Buffer → Buffer → Buffer → Except LibError Buffer
  /-- `createCipheriv("aes-128-gcm", key, iv)`, `update(text)`, `final()`,
  `getAuthTag()`: key, iv, plaintext; ciphertext and tag. -/
  aesGcmEncrypt : Buffer → Buffer → Buffer → Except LibError (Buffer × Buffer)
  /-- `crypto.createHmac("sha256", secret).update(data).digest("hex")`. -/
  hmacSha256Hex : String → String → HexDigest
  /-- `JSON.parse`. -/
  jsonParse : String → Except LibError Json
  /-- `JSON.stringify` of a JSON value. -/
  jsonStringify : Json → String
  /-- `buf.toString("base64")`. -/
  base64Encode : Buffer → String
  /-- `Buffer.from(s, "base64")` on a string. -/
  base64Decode : String → Buffer
  /-- `buf.toString("utf-8")`. -/
  utf8Decode : Buffer → String
  /-- `Buffer.from(v, "base64")` on a value that is not a string. -/
  bufferFromOther : JsValue → Except LibError Buffer

/-- `Buffer.from(v, "base64")` on a value read from the request. -/
def bufferFromBase64 (P : Platform) (v : JsValue) : Except LibError Buffer :=
  match v with
  | some (.str s) => .ok (P.base64Decode s)
  | other => P.bufferFromOther other

/-- `buf.subarray(start, end)` and `buf.slice(start, end)`: a negative index
counts from the end, and both indices are clamped to the buffer. -/
def bufferSubarray (buf : Buffer) (start : Int) (stop : Option Int) : Buffer :=
  let len : Int := buf.length
  let clamp (i : Int) : Nat := (if i < 0 then max (len + i) 0 else min i len).toNat
  let s := clamp start
  let e := match stop with
    | none => buf.length
    | some i => clamp i
  (buf.take e).drop s

/-- `crypto.timingSafeEqual(a, b)`: throws on buffers of different byte
length, compares the bytes otherwise. -/
def timingSafeEqual (a b : Buffer) : Except LibError Bool :=
  if a.length ≠ b.length then .error .rangeError else .ok (decide (a = b))

/-- The library calls and local functions an invocation of a handler went
through, in order. -/
inductive Call where
  | decryptRequest
  | createPrivateKey
  | privateDecrypt
  | aesGcmDecrypt
  | getNextScreen
  | encryptResponse
  | aesGcmEncrypt
deriving DecidableEq, Repr

/-- The result of a function together with the calls it made. -/
structure Outcome (α : Type) where
  calls : List Call
  result : Except JsError α

/-- The object a Lambda handler returns. -/
structure Response where
  statusCode : Nat
  headers : List (String × String)
  body : Option String
deriving DecidableEq, Repr

/-- The Lambda function-URL event, as far as the handlers read it. -/
structure Event where
  httpMethod : String
  queryStringParameters : Option (List (String × String))
  body : Option String
  isBase64Encoded : Bool
  headers : Option (List (String × String))

/-- The environment variables of `basic/index.js`. -/
structure Env where
  PRIVATE_KEY : String
  PASSPHRASE : String
  APP_SECRET : Option String

/-- What `handler` did: the calls it made and the response it resolved to. -/
structure HandlerResult where
  calls : List Call
  response : Response
deriving DecidableEq, Repr

/-! ## The response nonce -/

namespace Basic

/-- The loop of `encryptResponse` in `basic/index.js`:
`for (const pair of iv.entries()) flipped_iv.push(~pair[1])`. -/
def flippedIvArray (initialVectorBuffer : Buffer) : List Int :=
  initialVectorBuffer.foldl (fun (flipped_iv : List Int) (b : Nat) => flipped_iv ++ [bitNot (b : Int)]) []

/-- The nonce handed to the cipher by `encryptResponse`:
`Buffer.from(flipped_iv)`. -/
def responseNonce (initialVectorBuffer : Buffer) : Buffer :=
  bufferFromArray (flippedIvArray initialVectorBuffer)

end Basic

namespace WhatsappFlow

/-- The loop of the handler in `whatsapp-flow-handler/index.js`:
`flippedIV = Buffer.alloc(n); for (i = 0; i < n; i++) flippedIV[i] = iv[i] ^ 0xFF`. -/
def flippedIV (initialVectorBuffer : Buffer) : Buffer :=
  (List.range initialVectorBuffer.length).foldl
    (fun buf i => bufferSet buf i (bitXor (bufferGet initialVectorBuffer i) 255))
    (bufferAlloc initialVectorBuffer.length)

end WhatsappFlow

/-! ## The handler of `basic/index.js` -/

/-- Optional chaining `v?.key`. -/
def JsValue.optProp (v : JsValue) (key : String) : JsValue :=
  match v with
  | none => none
  | some .null => none
  | some j => j.prop key

/-- A property of an object literal: left out when its value is `undefined`,
as `JSON.stringify` leaves it out. -/
def optField (key : String) (v : JsValue) : List (String × Json) :=
  match v with
  | none => []
  | some j => [(key, j)]

/-- What `decryptRequest` returns. -/
structure DecryptedRequest where
  decryptedBody : Json
  aesKeyBuffer : Buffer
  initialVectorBuffer : Buffer

namespace Basic

/-- The constant `TAG_LENGTH` of `decryptRequest`. -/
def TAG_LENGTH : Nat := 16

/-- The message of the exception `decryptRequest` throws when the key blob
cannot be decrypted. -/
def keyUnwrapMessage : String :=
  "Failed to decrypt the request. Please verify your private key."

/-- The message of the error `getNextScreen` throws on a request it does not
handle. -/
def unhandledMessage : String :=
  "Unhandled endpoint request. Make sure you handle the request action & screen logged above."

/-- The function `getNextScreen` of `basic/index.js`. -/
def getNextScreen (decryptedBody : Json) : Except JsError Json :=
  match decryptedBody with
  | .null => .error (.lib .typeError)
  | body =>
    let screen := body.prop "screen"
    let data := body.prop "data"
    let action := body.prop "action"
    let flow_token := body.prop "flow_token"
    if action.isString "ping" then
      .ok (.obj [("data", .obj [("status", .str "active")])])
    else if (data.optProp "error").truthy then
      .ok (.obj [("data", .obj [("acknowledged", .bool true)])])
    else if action.isString "INIT" then
      .ok (.obj [("screen", .str "MY_SCREEN"),
        ("data", .obj [("greeting", .str "Hey there! ðŸ‘‹")])])
    else if action.isString "data_exchange" && screen.isString "MY_SCREEN" then
      .ok (.obj [("screen", .str "SUCCESS"),
        ("data", .obj [("extension_message_response",
          .obj [("params", .obj (optField "flow_token" flow_token))])])])
    else
      .error (.error unhandledMessage)

/-- Lines 102-119 of `decryptRequest`: split the flow data into ciphertext and
tag, decrypt and verify with AES-128-GCM, decode the text and parse it. -/
def decryptFlowData (P : Platform) (decryptedAesKey flowDataBuffer initialVectorBuffer : Buffer) :
    Except LibError Json :=
  let encrypted_flow_data_body := bufferSubarray flowDataBuffer 0 (some (-(TAG_LENGTH : Int)))
  let encrypted_flow_data_tag := bufferSubarray flowDataBuffer (-(TAG_LENGTH : Int)) none
  match P.aesGcmDecrypt decryptedAesKey initialVectorBuffer
      encrypted_flow_data_body encrypted_flow_data_tag with
  | .error e => .error e
  | .ok plain => P.jsonParse (P.utf8Decode plain)

/-- The function `decryptRequest` of `basic/index.js`. -/
def decryptRequest (P : Platform) (body : JsValue) (privatePem passphrase : String) :
    Outcome DecryptedRequest :=
  match body with
  | none => ⟨[.decryptRequest], .error (.lib .typeError)⟩
  | some .null => ⟨[.decryptRequest], .error (.lib .typeError)⟩
  | some b =>
    let encrypted_aes_key := b.prop "encrypted_aes_key"
    let encrypted_flow_data := b.prop "encrypted_flow_data"
    let initial_vector := b.prop "initial_vector"
    match P.createPrivateKey privatePem passphrase with
    | .error e => ⟨[.decryptRequest, .createPrivateKey], .error (.lib e)⟩
    | .ok privateKey =>
      -- try { privateDecrypt(..., Buffer.from(encrypted_aes_key, "base64")) } catch { throw 421 }
      match bufferFromBase64 P encrypted_aes_key with
      | .error _ =>
        ⟨[.decryptRequest, .createPrivateKey], .error (.flowEndpointException 421 keyUnwrapMessage)⟩
      | .ok keyBlob =>
        match P.privateDecrypt privateKey keyBlob with
        | .error _ =>
          ⟨[.decryptRequest, .createPrivateKey, .privateDecrypt],
            .error (.flowEndpointException 421 keyUnwrapMessage)⟩
        | .ok decryptedAesKey =>
          match bufferFromBase64 P encrypted_flow_data with
          | .error e =>
            ⟨[.decryptRequest, .createPrivateKey, .privateDecrypt], .error (.lib e)⟩
          | .ok flowDataBuffer =>
            match bufferFromBase64 P initial_vector with
            | .error e =>
              ⟨[.decryptRequest, .createPrivateKey, .privateDecrypt], .error (.lib e)⟩
            | .ok initialVectorBuffer =>
              match decryptFlowData P decryptedAesKey flowDataBuffer initialVectorBuffer with
              | .error e =>
                ⟨[.decryptRequest, .createPrivateKey, .privateDecrypt, .aesGcmDecrypt],
                  .error (.lib e)⟩
              | .ok decryptedBody =>
                ⟨[.decryptRequest, .createPrivateKey, .privateDecrypt, .aesGcmDecrypt],
                  .ok ⟨decryptedBody, decryptedAesKey, initialVectorBuffer⟩⟩

/-- The function `encryptResponse` of `basic/index.js`. -/
def encryptResponse (P : Platform) (response : Json) (aesKeyBuffer initialVectorBuffer : Buffer) :
    Except LibError String :=
  match P.aesGcmEncrypt aesKeyBuffer (responseNonce initialVectorBuffer)
      (utf8Bytes (P.jsonStringify response)) with
  | .error e => .error e
  | .ok (encrypted, authTag) => .ok (P.base64Encode (encrypted ++ authTag))

/-- The function `isRequestSignatureValid` of `basic/index.js`; `APP_SECRET` is
the environment variable it reads. -/
def isRequestSignatureValid (P : Platform) (APP_SECRET : Option String)
    (rawBody signatureHeader : Option String) : Except LibError Bool :=
  match APP_SECRET, strTruthy APP_SECRET with
  | some secret, true =>
    match signatureHeader, strTruthy signatureHeader with
    | some header, true =>
      let signatureBuffer := utf8Bytes (replaceFirst header "sha256=" "")
      match rawBody with
      | none => .error .typeError
      | some body =>
        let digestString := (P.hmacSha256Hex secret body).hex
        let digestBuffer := utf8Bytes digestString
        match timingSafeEqual digestBuffer signatureBuffer with
        | .error e => .error e
        | .ok equal => if !equal then .ok false else .ok true
    | _, _ => .ok false
  | _, _ => .ok true

/-- The verify token the `GET` branch of the handler compares with. -/
def verifyToken : String := "test1234567890"

/-- Lines 223-246 of the handler: decrypt the request, compute the next screen,
encrypt the reply. -/
def handleFlow (P : Platform) (env : Env) (parsedBody : JsValue) : Outcome Response :=
  match decryptRequest P parsedBody env.PRIVATE_KEY env.PASSPHRASE with
  | ⟨calls, .error (.flowEndpointException statusCode _)⟩ =>
    ⟨calls, .ok ⟨statusCode, [], none⟩⟩
  | ⟨calls, .error _⟩ => ⟨calls, .ok ⟨500, [], none⟩⟩
  | ⟨calls, .ok decryptedRequest⟩ =>
    match getNextScreen decryptedRequest.decryptedBody with
    | .error e => ⟨calls ++ [.getNextScreen], .error e⟩
    | .ok screenResponse =>
      match encryptResponse P screenResponse decryptedRequest.aesKeyBuffer
          decryptedRequest.initialVectorBuffer with
      | .error e => ⟨calls ++ [.getNextScreen, .encryptResponse], .error (.lib e)⟩
      | .ok encryptedResponse =>
        ⟨calls ++ [.getNextScreen, .encryptResponse],
          .ok ⟨200, [("Content-Type", "text/plain")], some encryptedResponse⟩⟩

/-- The body of the `try` block of the handler of `basic/index.js`. -/
def handlerTry (P : Platform) (env : Env) (event : Event) : Outcome Response :=
  if event.httpMethod = "GET" then
    let params : String → Option String := fun key =>
      match event.queryStringParameters with
      | none => none
      | some q => q.lookup key
    if params "hub.mode" = some "subscribe" ∧ params "hub.verify_token" = some verifyToken then
      ⟨[], .ok ⟨200, [("Content-Type", "text/plain")], params "hub.challenge"⟩⟩
    else
      ⟨[], .ok ⟨403, [], some "Verification failed"⟩⟩
  else if event.httpMethod = "POST" then
    -- if (event.isBase64Encoded) body = Buffer.from(body, 'base64').toString('utf8')
    let decoded : Except LibError (Option String) :=
      if event.isBase64Encoded then
        match event.body with
        | none => .error .typeError
        | some b => .ok (some (P.utf8Decode (P.base64Decode b)))
      else .ok event.body
    match decoded with
    | .error e => ⟨[], .error (.lib e)⟩
    | .ok body =>
      -- typeof body === 'string' ? JSON.parse(body) : body
      let parsed : Except LibError JsValue :=
        match body with
        | none => .ok none
        | some text => (P.jsonParse text).map some
      match parsed with
      | .error e => ⟨[], .error (.lib e)⟩
      | .ok parsedBody =>
        match event.headers with
        | none => ⟨[], .error (.lib .typeError)⟩
        | some headers =>
          let signature := headers.lookup "x-hub-signature-256"
          match isRequestSignatureValid P env.APP_SECRET body signature with
          | .error e => ⟨[], .error (.lib e)⟩
          | .ok false => ⟨[], .ok ⟨432, [], none⟩⟩
          | .ok true => handleFlow P env parsedBody
  else
    ⟨[], .ok ⟨405, [], some "Method Not Allowed"⟩⟩

/-- The `catch` of the handler: every exception is answered with status 500
and the body `Server error`. -/
def catchAll (o : Outcome Response) : HandlerResult :=
  match o with
  | ⟨calls, .ok response⟩ => ⟨calls, response⟩
  | ⟨calls, .error _⟩ => ⟨calls, ⟨500, [], some "Server error"⟩⟩

/-- The handler of `basic/index.js`: the `try` block under its `catch`. -/
def handler (P : Platform) (env : Env) (event : Event) : HandlerResult :=
  catchAll (handlerTry P env event)

/-- The event is a `POST` whose body (decoded from base64 when the event says
so) parses to `parsedBody`, and the signature check of the handler passes. -/
def VerifiedPost (P : Platform) (env : Env) (event : Event) (parsedBody : Json) : Prop :=
  event.httpMethod = "POST" ∧
  ∃ (raw : String) (headers : List (String × String)),
    event.body = some raw ∧ event.headers = some headers ∧
    P.jsonParse (if event.isBase64Encoded then P.utf8Decode (P.base64Decode raw) else raw)
      = .ok parsedBody ∧
    isRequestSignatureValid P env.APP_SECRET
      (some (if event.isBase64Encoded then P.utf8Decode (P.base64Decode raw) else raw))
      (headers.lookup "x-hub-signature-256") = .ok true

end Basic

/-! ## Signature verification in the other handlers -/

/-- The Express request, as far as `isRequestSignatureValid` of
`bookAppoitment/src/server.js` reads it. -/
structure Request where
  /-- `req.get(name)`. -/
  get : String → Option String
  /-- `req.rawBody`, set by the JSON body parser. -/
  rawBody : Option String

namespace Server

/-- The function `isRequestSignatureValid` of `bookAppoitment/src/server.js`;
`APP_SECRET` is the environment variable it reads. -/
def isRequestSignatureValid (P : Platform) (APP_SECRET : Option String) (req : Request) :
    Except LibError Bool :=
  match APP_SECRET, strTruthy APP_SECRET with
  | some secret, true =>
    let signatureHeader := req.get "x-hub-signature-256"
    match signatureHeader, strTruthy signatureHeader with
    | some header, true =>
      let signatureBuffer := utf8Bytes (replaceFirst header "sha256=" "")
      match req.rawBody with
      | none => .error .typeError
      | some body =>
        let digestString := (P.hmacSha256Hex secret body).hex
        let digestBuffer := utf8Bytes digestString
        match timingSafeEqual digestBuffer signatureBuffer with
        | .error e => .error e
        | .ok equal => if !equal then .ok false else .ok true
    | _, _ => .ok true
  | _, _ => .ok true

end Server

namespace Lambda

/-- The function `verifySignature` of `lamda-handler.js`; `APP_SECRET` is the
environment variable it reads. Every exception of the `try` block is caught
and answered with `false`. -/
def verifySignature (P : Platform) (APP_SECRET : Option String)
    (bodyStr signature : Option String) : Bool :=
  match APP_SECRET, strTruthy APP_SECRET with
  | some secret, true =>
    let attempt : Except LibError Bool :=
      match bodyStr with
      | none => .error .typeError
      | some body =>
        let expectedSignature := "sha256=" ++ (P.hmacSha256Hex secret body).hex
        match signature with
        | none => .error .typeError
        | some received =>
          match timingSafeEqual (utf8Bytes expectedSignature) (utf8Bytes received) with
          | .error e => .error e
          | .ok equal => if equal then .ok true else .ok false
    match attempt with
    | .ok b => b
    | .error _ => false
  | _, _ => true

end Lambda

namespace ServerCopy

/-- The function `isRequestSignatureValid` of `bookAppoitment/src/server copy.js`;
`APP_SECRET` is the environment variable it reads. -/
def isRequestSignatureValid (P : Platform) (APP_SECRET : Option String) (req : Request) :
    Except LibError Bool :=
  match APP_SECRET, strTruthy APP_SECRET with
  | some secret, true =>
    let signatureHeader := req.get "x-hub-signature-256"
    match signatureHeader, strTruthy signatureHeader with
    | some header, true =>
      let signatureBuffer := utf8Bytes (replaceFirst header "sha256=" "")
      match req.rawBody with
      | none => .error .typeError
      | some body =>
        let digestString := (P.hmacSha256Hex secret body).hex
        let digestBuffer := utf8Bytes digestString
        match timingSafeEqual digestBuffer signatureBuffer with
        | .error e => .error e
        | .ok equal => if !equal then .ok false else .ok true
    | _, _ => .ok true
  | _, _ => .ok true

end ServerCopy

/-- The operator `a || b` on two optional strings: `a` when it is truthy, `b`
otherwise. -/
def strOr (a b : Option String) : Option String :=
  if strTruthy a then a else b

namespace Lambda

/-- The function `getBody` of `lamda-handler.js`. -/
def getBody (P : Platform) (event : Event) : String :=
  let body : String := (strOr event.body (some "")).getD ""
  if event.isBase64Encoded && body != "" then
    P.utf8Decode (P.base64Decode body)
  else body

/-- The function `handlePostRequest` of `lamda-handler.js`; `APP_SECRET` is the
environment variable `verifySignature` reads. -/
def handlePostRequest (P : Platform) (APP_SECRET : Option String) (event : Event) : Response :=
  let bodyStr := getBody P event
  let signature : Option String :=
    match event.headers with
    | none => none
    | some headers =>
      strOr (headers.lookup "x-hub-signature-256") (headers.lookup "X-Hub-Signature-256")
  if strTruthy signature && !verifySignature P APP_SECRET (some bodyStr) signature then
    -- "Return 200 OK to Meta anyway to avoid retries, but log the failure"
    ⟨200, [], some (P.jsonStringify (.obj [("status", .str "error - invalid signature")]))⟩
  else
    ⟨200, [], some (P.jsonStringify (.obj [("status", .str "ok - logged")]))⟩

end Lambda

/-! ## The handler of `whatsapp-flow-handler/index.js` -/

/-- Node `buf.slice(start, end)`: on a `Buffer` the same view as
`buf.subarray(start, end)`. -/
def bufferSlice (buf : Buffer) (start : Int) (stop : Option Int) : Buffer :=
  bufferSubarray buf start stop

namespace WhatsappFlow

/-- The constant `TAG_LENGTH` of the handler. -/
def TAG_LENGTH : Nat := 16

/-- `crypto.privateDecrypt({ key: PRIVATE_KEY, padding, oaepHash }, blob)` with
the key given as a PEM text: the key is loaded without a passphrase, then used. -/
def privateDecryptPem (P : Platform) (pem : String) (blob : Buffer) : Except LibError Buffer :=
  match P.createPrivateKey pem "" with
  | .error e => .error e
  | .ok key => P.privateDecrypt key blob

/-- Lines 55-92 of the handler, the `try` block of the decryption: unwrap the
key, split the flow data with `slice`, decrypt and verify, parse. -/
def decryptEnvelope (P : Platform) (PRIVATE_KEY : String)
    (encrypted_aes_key encrypted_flow_data initial_vector : JsValue) :
    Except LibError DecryptedRequest :=
  match bufferFromBase64 P encrypted_aes_key with
  | .error e => .error e
  | .ok encryptedAesKey =>
    match privateDecryptPem P PRIVATE_KEY encryptedAesKey with
    | .error e => .error e
    | .ok aesKeyBuffer =>
      match bufferFromBase64 P initial_vector with
      | .error e => .error e
      | .ok initialVectorBuffer =>
        match bufferFromBase64 P encrypted_flow_data with
        | .error e => .error e
        | .ok flowDataBuffer =>
          let ciphertext := bufferSlice flowDataBuffer 0 (some (-(TAG_LENGTH : Int)))
          let authTag := bufferSlice flowDataBuffer (-(TAG_LENGTH : Int)) none
          match P.aesGcmDecrypt aesKeyBuffer initialVectorBuffer ciphertext authTag with
          | .error e => .error e
          | .ok decrypted =>
            match P.jsonParse (P.utf8Decode decrypted) with
            | .error e => .error e
            | .ok decryptedBody => .ok ⟨decryptedBody, aesKeyBuffer, initialVectorBuffer⟩

/-- Lines 112-127 and 146-170 of the handler: encrypt the reply under the
flipped IV and answer with status 200. -/
def encryptReply (P : Platform) (reply : Json) (aesKeyBuffer initialVectorBuffer : Buffer) :
    Except LibError String :=
  match P.aesGcmEncrypt aesKeyBuffer (flippedIV initialVectorBuffer)
      (utf8Bytes (P.jsonStringify reply)) with
  | .error e => .error e
  | .ok (encrypted, authTag) => .ok (P.base64Encode (encrypted ++ authTag))

/-- Lines 43-170 of the handler, on a request body that is neither `undefined`
nor `null`: check the envelope, decrypt it, choose the reply, encrypt it. -/
def handleEnvelope (P : Platform) (PRIVATE_KEY : String) (body : Json) :
    Except JsError Response :=
  let encrypted_aes_key := body.prop "encrypted_aes_key"
  let encrypted_flow_data := body.prop "encrypted_flow_data"
  let initial_vector := body.prop "initial_vector"
  if !encrypted_aes_key.truthy || !encrypted_flow_data.truthy || !initial_vector.truthy then
    .ok ⟨400, [], some (P.jsonStringify (.obj [("error", .str "Invalid request format")]))⟩
  else
    match decryptEnvelope P PRIVATE_KEY encrypted_aes_key encrypted_flow_data initial_vector with
    | .error _ =>
      .ok ⟨421, [], some (P.jsonStringify (.obj [("error", .str "Decryption error")]))⟩
    | .ok request =>
      match request.decryptedBody with
      | .null => .error (.lib .typeError)
      | decryptedBody =>
        let version := decryptedBody.prop "version"
        let action := decryptedBody.prop "action"
        if !version.isString "3.0" then
          let errorResponse : Json := .obj [("error", .str "Unsupported version")]
          match encryptReply P errorResponse request.aesKeyBuffer
              request.initialVectorBuffer with
          | .error e => .error (.lib e)
          | .ok output => .ok ⟨200, [("Content-Type", "text/plain")], some output⟩
        else
          let responseData : Json :=
            if action.isString "ping" then
              .obj [("data", .obj [("status", .str "active")])]
            else
              .obj [("error", .str "Unsupported action")]
          match encryptReply P responseData request.aesKeyBuffer
              request.initialVectorBuffer with
          | .error e => .error (.lib e)
          | .ok base64Response =>
            .ok ⟨200, [("Content-Type", "text/plain")], some base64Response⟩

/-- The body of the outer `try` block of the handler; `PRIVATE_KEY` is the
environment variable it reads. -/
def handlerTry (P : Platform) (PRIVATE_KEY : String) (event : Event) : Except JsError Response :=
  if event.httpMethod ≠ "POST" then
    .ok ⟨405, [], some (P.jsonStringify (.obj [("error", .str "Method Not Allowed")]))⟩
  else
    let decoded : Except LibError (Option String) :=
      if event.isBase64Encoded then
        match event.body with
        | none => .error .typeError
        | some b => .ok (some (P.utf8Decode (P.base64Decode b)))
      else .ok event.body
    match decoded with
    | .error e => .error (.lib e)
    | .ok raw =>
      let parsed : Except LibError JsValue :=
        match raw with
        | none => .ok none
        | some text => (P.jsonParse text).map some
      match parsed with
      | .error e => .error (.lib e)
      -- Object.keys(body) and the destructuring throw on `undefined` and `null`
      | .ok none => .error (.lib .typeError)
      | .ok (some .null) => .error (.lib .typeError)
      | .ok (some body) => handleEnvelope P PRIVATE_KEY body

/-- The handler of `whatsapp-flow-handler/index.js`: the `try` block, and the
`catch` that answers every exception with status 500. -/
def handler (P : Platform) (PRIVATE_KEY : String) (event : Event) : Response :=
  match handlerTry P PRIVATE_KEY event with
  | .ok response => response
  | .error _ => ⟨500, [], some (P.jsonStringify (.obj [("error", .str "Server error")]))⟩

/-- The event is a `POST` whose body (decoded from base64 when the event says
so) parses to the envelope, a value other than `null`. -/
def PostsEnvelope (P : Platform) (event : Event) (envelope : Json) : Prop :=
  event.httpMethod = "POST" ∧ envelope ≠ .null ∧
  ∃ raw : String, event.body = some raw ∧
    P.jsonParse (if event.isBase64Encoded then P.utf8Decode (P.base64Decode raw) else raw)
      = .ok envelope

/-- None of the three fields of the envelope is missing (or otherwise falsy). -/
def FieldsPresent (envelope : Json) : Prop :=
  (envelope.prop "encrypted_aes_key").truthy = true ∧
  (envelope.prop "encrypted_flow_data").truthy = true ∧
  (envelope.prop "initial_vector").truthy = true

end WhatsappFlow

/-! ## Laws of the library primitives -/

/-- The IV lengths `createCipheriv("aes-128-gcm", key, iv)` accepts: 1 to 128
bytes. On any other IV it throws `ERR_CRYPTO_INVALID_IV`. -/
def gcmIvAccepted (iv : Buffer) : Bool :=
  decide (1 ≤ iv.length) && decide (iv.length ≤ 128)

/-- AES-128-GCM is an authenticated encryption: under a 16-byte key and a
nonce of an accepted length, encryption succeeds with a 16-byte tag, and
decryption of the ciphertext with that tag under the same key and nonce
returns the plaintext. Nothing is said of a nonce the cipher does not accept. -/
def Platform.AeadCorrect (P : Platform) : Prop :=
  ∀ (key iv text : Buffer), key.length = 16 → gcmIvAccepted iv = true → BufferWF text →
    ∃ encrypted authTag, P.aesGcmEncrypt key iv text = .ok (encrypted, authTag) ∧
      authTag.length = 16 ∧ BufferWF encrypted ∧ BufferWF authTag ∧
      P.aesGcmDecrypt key iv encrypted authTag = .ok text

/-- Base64 decoding undoes base64 encoding of a buffer. -/
def Platform.Base64Correct (P : Platform) : Prop :=
  ∀ (b : Buffer), BufferWF b → P.base64Decode (P.base64Encode b) = b

/-- The reply is JSON-serialisable: its JSON text survives the UTF-8 encoding
and decoding, and parses back to the reply. -/
def Platform.Serialisable (P : Platform) (reply : Json) : Prop :=
  P.utf8Decode (utf8Bytes (P.jsonStringify reply)) = P.jsonStringify reply ∧
  P.jsonParse (P.jsonStringify reply) = .ok reply

/-! ## A test platform

A small instance of `Platform`, used to evaluate the handlers on concrete
requests. Its HMAC agrees with HMAC-SHA256 under the secret `key` on the
bodies of its table; its cipher shifts every byte by one and uses a constant
tag; its base64 and UTF-8 codecs map a byte to the character of that code. -/

/-- HMAC-SHA256 of `The quick brown fox jumps over the lazy dog` under `key`. -/
def digestFox : HexDigest :=
  ⟨"f7bc83f430538424b13298e6aa6fb143ef4d59a14946175997479dbc2d1a3cd8", by decide, by decide⟩

/-- HMAC-SHA256 of the two-character body of an empty JSON object under `key`. -/
def digestEmptyObject : HexDigest :=
  ⟨"a777724d943eb48dc69bca8a4a6d57a04db3f9ec7e1de4e581e860265bdf3032", by decide, by decide⟩

/-- HMAC-SHA256 of `envelopeText "k" pingWire` under `key`. -/
def digestPingEnvelope : HexDigest :=
  ⟨"f983e856722fa917953e1e8b88598b42a02916f10c9fcc5b09dbc3fb4827c626", by decide, by decide⟩

/-- HMAC-SHA256 of `envelopeText "k" badTagWire` under `key`. -/
def digestBadTagEnvelope : HexDigest :=
  ⟨"b6d558025d133cfe4787a3e44d854475b6065a18044b2e338661b973385754f0", by decide, by decide⟩

/-- HMAC-SHA256 of `envelopeText "x" pingWire` under `key`. -/
def digestBadKeyEnvelope : HexDigest :=
  ⟨"0bfd973f198ee5ed77662316bb38f6f654ebe16acee2492775bb31c0fee83d8e", by decide, by decide⟩

/-- The digest the test platform gives every other input. -/
def digestZero : HexDigest :=
  ⟨"0000000000000000000000000000000000000000000000000000000000000000", by decide, by decide⟩

/-- The health-check reply `{data: {status: "active"}}`. -/
def activeReply : Json := .obj [("data", .obj [("status", .str "active")])]

/-- The JSON text of `activeReply`. -/
def activeReplyText : String := "\x7b\"data\":\x7b\"status\":\"active\"\x7d\x7d"

/-- The JSON text of the health-check request `{action: "ping"}`. -/
def pingText : String := "\x7b\"action\":\"ping\"\x7d"

/-- The flow data of the health-check request under the test cipher: the
shifted bytes of `pingText`, then the tag. -/
def pingWire : String := "|#bdujpo#;#qjoh#~TTTTTTTTTTTTTTTT"

/-- The JSON text of the health-check request `{version: "3.0", action: "ping"}`. -/
def pingV3Text : String := "\x7b\"version\":\"3.0\",\"action\":\"ping\"\x7d"

/-- The flow data of `pingV3Text` under the test cipher. -/
def pingV3Wire : String := "|#wfstjpo#;#4/1#-#bdujpo#;#qjoh#~TTTTTTTTTTTTTTTT"

/-- The flow data of an empty JSON object under the test cipher. -/
def emptyObjectWire : String := "|~TTTTTTTTTTTTTTTT"

/-- HMAC-SHA256 of `envelopeText "k" emptyObjectWire` under `key`. -/
def digestEmptyObjectEnvelope : HexDigest :=
  ⟨"1ac2dcd910d0684b0ac4bf35dbd5bfb33c576106b85d746e0312a0b15c3a5cd2", by decide, by decide⟩

/-- The flow data `pingWire` with the last byte of its tag changed. -/
def badTagWire : String := "|#bdujpo#;#qjoh#~TTTTTTTTTTTTTTTU"

/-- The JSON text of an envelope with the given key blob and flow data. -/
def envelopeText (keyBlob flowData : String) : String :=
  "\x7b\"encrypted_aes_key\":\"" ++ keyBlob ++ "\",\"encrypted_flow_data\":\"" ++ flowData ++
    "\",\"initial_vector\":\"AAAAAAAAAAAA\"\x7d"

/-- The envelope of `envelopeText`, parsed. -/
def envelopeJson (keyBlob flowData : String) : Json :=
  .obj [("encrypted_aes_key", .str keyBlob), ("encrypted_flow_data", .str flowData),
    ("initial_vector", .str "AAAAAAAAAAAA")]

/-- The tag of the test cipher. -/
def testTag : Buffer := List.replicate 16 84

/-- The test platform. -/
def testPlatform : Platform where
  createPrivateKey := fun pem passphrase =>
    if pem = "PEM" ∧ passphrase = "" then .ok ⟨1⟩ else .error (.cryptoError "ERR_OSSL_BAD_DECRYPT")
  privateDecrypt := fun key blob =>
    if key.handle = 1 ∧ blob = [107] then .ok (List.replicate 16 1)
    else .error (.cryptoError "ERR_OSSL_RSA_OAEP_DECODING_ERROR")
  aesGcmDecrypt := fun key _ body tag =>
    if key.length = 16 ∧ tag = testTag then .ok (body.map (fun b => (b + 255) % 256))
    else .error (.cryptoError "ERR_CRYPTO_AUTH_FAILED")
  aesGcmEncrypt := fun key _ text =>
    if key.length = 16 then .ok (text.map (fun b => (b + 1) % 256), testTag)
    else .error (.cryptoError "ERR_CRYPTO_INVALID_KEYLEN")
  hmacSha256Hex := fun secret data =>
    if secret = "key" ∧ data = "The quick brown fox jumps over the lazy dog" then digestFox
    else if secret = "key" ∧ data = "\x7b\x7d" then digestEmptyObject
    else if secret = "key" ∧ data = envelopeText "k" pingWire then digestPingEnvelope
    else if secret = "key" ∧ data = envelopeText "k" badTagWire then digestBadTagEnvelope
    else if secret = "key" ∧ data = envelopeText "x" pingWire then digestBadKeyEnvelope
    else if secret = "key" ∧ data = envelopeText "k" emptyObjectWire then digestEmptyObjectEnvelope
    else digestZero
  jsonParse := fun text =>
    if text = "\x7b\x7d" then .ok (.obj [])
    else if text = activeReplyText then .ok activeReply
    else if text = pingText then .ok (.obj [("action", .str "ping")])
    else if text = envelopeText "k" pingWire then .ok (envelopeJson "k" pingWire)
    else if text = envelopeText "k" badTagWire then .ok (envelopeJson "k" badTagWire)
    else if text = envelopeText "x" pingWire then .ok (envelopeJson "x" pingWire)
    else if text = envelopeText "k" emptyObjectWire then .ok (envelopeJson "k" emptyObjectWire)
    else if text = envelopeText "k" pingV3Wire then .ok (envelopeJson "k" pingV3Wire)
    else if text = pingV3Text then .ok (.obj [("version", .str "3.0"), ("action", .str "ping")])
    else .error .syntaxError
  jsonStringify := fun v =>
    match v with
    | .obj [("data", .obj [("status", .str "active")])] => activeReplyText
    | .obj [(key, .str value)] => "\x7b\"" ++ key ++ "\":\"" ++ value ++ "\"\x7d"
    | _ => "null"
  base64Encode := fun b => ⟨b.map Char.ofNat⟩
  base64Decode := fun s => s.data.map Char.toNat
  utf8Decode := fun b => ⟨b.map Char.ofNat⟩
  bufferFromOther := fun _ => .error .typeError

/-- The tag of the IV-checking test cipher: the first 16 bytes of the IV,
padded with zeros. -/
def ivBoundTag (iv : Buffer) : Buffer :=
  (iv.map (fun b => b % 256) ++ List.replicate 16 0).take 16

/-- The test platform with a cipher that treats the IV as Node does: a key that
is not 16 bytes long and an IV outside 1 to 128 bytes are refused, and the tag
is bound to the IV, so that decryption under another IV fails. -/
def ivCheckingPlatform : Platform :=
  { testPlatform with
    aesGcmEncrypt := fun key iv text =>
      if key.length ≠ 16 then .error (.cryptoError "ERR_CRYPTO_INVALID_KEYLEN")
      else if gcmIvAccepted iv = false then .error (.cryptoError "ERR_CRYPTO_INVALID_IV")
      else .ok (text.map (fun b => (b + 1) % 256), ivBoundTag iv)
    aesGcmDecrypt := fun key iv body tag =>
      if key.length ≠ 16 then .error (.cryptoError "ERR_CRYPTO_INVALID_KEYLEN")
      else if gcmIvAccepted iv = false then .error (.cryptoError "ERR_CRYPTO_INVALID_IV")
      else if tag = ivBoundTag iv then .ok (body.map (fun b => (b + 255) % 256))
      else .error (.cryptoError "ERR_CRYPTO_AUTH_FAILED") }

/-- The sample `POST` event of `basic/test-env.js`. -/
def testEnvPostEvent : Event where
  httpMethod := "POST"
  queryStringParameters := none
  body := some ("\x7b\"encrypted_aes_key\":\"dummy-base64-key\"," ++
    "\"encrypted_flow_data\":\"dummy-base64-data\",\"initial_vector\":\"dummy-base64-iv\"\x7d")
  isBase64Encoded := false
  headers := some [("x-hub-signature-256", "sha256=dummy-signature")]

/-- A `POST` event with the given body and signature header. -/
def postEvent (body signature : String) : Event where
  httpMethod := "POST"
  queryStringParameters := none
  body := some body
  isBase64Encoded := false
  headers := some [("x-hub-signature-256", signature)]

/-- A 12-byte request IV. -/
def sampleIv : Buffer := [0, 1, 2, 127, 128, 200, 254, 255, 16, 32, 64, 99]

/-- The environment of the test platform: its private key, no passphrase, and
the app secret `key`. -/
def testEnv : Env := ⟨"PEM", "", some "key"⟩

/-! ## Lemmas on buffers and strings -/

theorem bufferSubarray_body (B : Buffer) :
    bufferSubarray B 0 (some (-(Basic.TAG_LENGTH : Int))) = B.take (B.length - 16) := by
  unfold bufferSubarray Basic.TAG_LENGTH
  have h1 : (if (0 : Int) < 0 then max ((B.length : Int) + 0) 0
      else min 0 (B.length : Int)).toNat = 0 := by
    simp
  have h2 : (if (-((16 : Nat) : Int)) < 0 then max ((B.length : Int) + (-((16 : Nat) : Int))) 0
      else min (-((16 : Nat) : Int)) (B.length : Int)).toNat = B.length - 16 := by
    rw [if_pos (by omega)]
    omega
  simp only [h1, h2, List.drop_zero]

theorem bufferSubarray_tag (B : Buffer) :
    bufferSubarray B (-(Basic.TAG_LENGTH : Int)) none = B.drop (B.length - 16) := by
  unfold bufferSubarray Basic.TAG_LENGTH
  have h2 : (if (-((16 : Nat) : Int)) < 0 then max ((B.length : Int) + (-((16 : Nat) : Int))) 0
      else min (-((16 : Nat) : Int)) (B.length : Int)).toNat = B.length - 16 := by
    rw [if_pos (by omega)]
    omega
  simp only [h2, List.take_length]

theorem char_toNat_lt (c : Char) : c.toNat < 1114112 := by
  have h := c.valid
  unfold UInt32.isValidChar Nat.isValidChar at h
  unfold Char.toNat
  omega

theorem utf8EncodeChar_wf (c : Char) : BufferWF (utf8EncodeChar c) := by
  have hc := char_toNat_lt c
  intro x hx
  unfold utf8EncodeChar at hx
  simp only at hx
  split_ifs at hx <;> simp only [List.mem_cons, List.mem_singleton, List.not_mem_nil, or_false] at hx
    <;> omega

theorem utf8Bytes_wf (s : String) : BufferWF (utf8Bytes s) := by
  intro x hx
  unfold utf8Bytes at hx
  rcases List.mem_flatMap.mp hx with ⟨c, _, hxc⟩
  exact utf8EncodeChar_wf c x hxc

theorem bufferWF_append (a b : Buffer) (ha : BufferWF a) (hb : BufferWF b) :
    BufferWF (a ++ b) := by
  intro x hx
  rcases List.mem_append.mp hx with h | h
  · exact ha x h
  · exact hb x h

theorem char_toNat_ofNat (n : Nat) (h : n < 256) : (Char.ofNat n).toNat = n := by
  unfold Char.ofNat
  have hv : n.isValidChar := by unfold Nat.isValidChar; omega
  simp only [hv, Char.ofNatAux, Char.toNat, dite_true]
  rfl

theorem testPlatform_aead : testPlatform.AeadCorrect := by
  intro key iv text hkey _ htext
  refine ⟨text.map (fun b => (b + 1) % 256), testTag, ?_, ?_, ?_, ?_, ?_⟩
  · simp [testPlatform, hkey]
  · simp [testTag]
  · intro x hx
    rcases List.mem_map.mp hx with ⟨b, _, rfl⟩
    omega
  · unfold testTag; intro x hx; rw [List.eq_of_mem_replicate hx]; omega
  · simp only [testPlatform, hkey, and_self, if_true, List.map_map]
    congr 1
    conv_rhs => rw [← List.map_id text]
    refine List.map_congr_left ?_
    intro b hb
    have := htext b hb
    simp only [Function.comp_apply, id_eq]
    omega

theorem testPlatform_base64 : testPlatform.Base64Correct := by
  intro b hb
  simp only [testPlatform, List.map_map]
  conv_rhs => rw [← List.map_id b]
  refine List.map_congr_left ?_
  intro x hx
  simp only [Function.comp_apply, id_eq]
  exact char_toNat_ofNat x (hb x hx)

theorem testPlatform_serialisable : testPlatform.Serialisable activeReply := by
  constructor
  · decide
  · rfl

theorem ivBoundTag_length (iv : Buffer) : (ivBoundTag iv).length = 16 := by
  unfold ivBoundTag
  rw [List.length_take, List.length_append, List.length_replicate]
  omega

theorem ivBoundTag_wf (iv : Buffer) : BufferWF (ivBoundTag iv) := by
  intro x hx
  unfold ivBoundTag at hx
  rcases List.mem_append.mp (List.mem_of_mem_take hx) with h | h
  · rcases List.mem_map.mp h with ⟨b, _, rfl⟩
    omega
  · rw [List.eq_of_mem_replicate h]
    omega

theorem ivCheckingPlatform_aead : ivCheckingPlatform.AeadCorrect := by
  intro key iv text hkey hiv htext
  refine ⟨text.map (fun b => (b + 1) % 256), ivBoundTag iv, ?_, ivBoundTag_length iv, ?_,
    ivBoundTag_wf iv, ?_⟩
  · simp [ivCheckingPlatform, hkey, hiv]
  · intro x hx
    rcases List.mem_map.mp hx with ⟨b, _, rfl⟩
    omega
  · simp only [ivCheckingPlatform, hkey, hiv, ne_eq, not_true_eq_false, if_false, if_true,
      Bool.true_eq_false, List.map_map]
    congr 1
    conv_rhs => rw [← List.map_id text]
    refine List.map_congr_left ?_
    intro b hb
    have := htext b hb
    simp only [Function.comp_apply, id_eq]
    omega

theorem ivCheckingPlatform_base64 : ivCheckingPlatform.Base64Correct :=
  testPlatform_base64

theorem ivCheckingPlatform_serialisable : ivCheckingPlatform.Serialisable activeReply := by
  constructor
  · decide
  · rfl

/-- On the IV-checking test platform the reply does not decrypt under the
request IV itself: the tag is bound to the complemented IV. -/
theorem ivCheckingPlatform_binds_nonce :
    (match Basic.encryptResponse ivCheckingPlatform activeReply (List.replicate 16 1) sampleIv with
      | Except.error e => Except.error e
      | Except.ok wire =>
        Basic.decryptFlowData ivCheckingPlatform (List.replicate 16 1)
          (ivCheckingPlatform.base64Decode wire) sampleIv)
      = (Except.error (.cryptoError "ERR_CRYPTO_AUTH_FAILED") : Except LibError Json) := by
  rfl

theorem gcmIvAccepted_complement (N : Buffer) (h : 1 ≤ N.length ∧ N.length ≤ 128) :
    gcmIvAccepted (N.map (fun b => 255 - b)) = true := by
  unfold gcmIvAccepted
  rw [List.length_map]
  simp [h.1, h.2]

theorem char_eq_of_toNat_eq (c a : Char) (h : c.toNat = a.toNat) : c = a := by
  rw [← Char.ofNat_toNat c, ← Char.ofNat_toNat a, h]

theorem utf8EncodeChar_ascii (c : Char) (h : c.toNat < 128) : utf8EncodeChar c = [c.toNat] := by
  unfold utf8EncodeChar
  simp only [h, if_true]

theorem utf8EncodeChar_head (c : Char) :
    ∃ b rest, utf8EncodeChar c = b :: rest ∧ (c.toNat < 128 → b = c.toNat ∧ rest = []) ∧
      (¬ c.toNat < 128 → 192 ≤ b) := by
  unfold utf8EncodeChar
  simp only
  split_ifs with h1 h2 h3
  · exact ⟨_, _, rfl, fun _ => ⟨rfl, rfl⟩, fun h => absurd h1 h⟩
  · exact ⟨_, _, rfl, fun h => absurd h h1, fun _ => by omega⟩
  · exact ⟨_, _, rfl, fun h => absurd h h1, fun _ => by omega⟩
  · exact ⟨_, _, rfl, fun h => absurd h h1, fun _ => by omega⟩

theorem isLowerHexDigit_ascii (c : Char) (h : isLowerHexDigit c = true) : c.toNat < 128 := by
  unfold isLowerHexDigit at h
  have h0 : '9'.toNat = 57 := by decide
  have h1 : 'f'.toNat = 102 := by decide
  simp only [Bool.or_eq_true, Bool.and_eq_true, decide_eq_true_eq] at h
  omega

theorem isLowerHexDigit_ne_s (c : Char) (h : isLowerHexDigit c = true) : c ≠ 's' := by
  intro hc
  subst hc
  revert h
  decide

theorem flatMap_utf8_ascii (d : List Char) (hd : ∀ c ∈ d, c.toNat < 128) :
    d.flatMap utf8EncodeChar = d.map Char.toNat := by
  induction d with
  | nil => rfl
  | cons a rest ih =>
    rw [List.flatMap_cons, List.map_cons, utf8EncodeChar_ascii a (hd a (List.mem_cons_self _ _)),
      ih (fun c hc => hd c (List.mem_cons_of_mem _ hc))]
    rfl

theorem flatMap_utf8_eq_ascii (d : List Char) (hd : ∀ c ∈ d, c.toNat < 128) (s : List Char)
    (h : s.flatMap utf8EncodeChar = d.flatMap utf8EncodeChar) : s = d := by
  induction d generalizing s with
  | nil =>
    cases s with
    | nil => rfl
    | cons c cs =>
      obtain ⟨b, rest, hb, _, _⟩ := utf8EncodeChar_head c
      rw [List.flatMap_cons, hb] at h
      simp at h
  | cons a d ih =>
    have ha : a.toNat < 128 := hd a (List.mem_cons_self _ _)
    rw [List.flatMap_cons, utf8EncodeChar_ascii a ha] at h
    cases s with
    | nil => simp at h
    | cons c cs =>
      obtain ⟨b, rest, hb, hlow, hhigh⟩ := utf8EncodeChar_head c
      rw [List.flatMap_cons, hb] at h
      simp only [List.cons_append, List.nil_append, List.singleton_append, List.cons.injEq] at h
      by_cases hc : c.toNat < 128
      · obtain ⟨hbc, hrest⟩ := hlow hc
        have hca : c = a := char_eq_of_toNat_eq c a (by rw [← hbc]; exact h.1)
        have htail : cs.flatMap utf8EncodeChar = d.flatMap utf8EncodeChar := by
          have := h.2
          rw [hrest] at this
          simpa using this
        rw [hca, ih (fun x hx => hd x (List.mem_cons_of_mem _ hx)) cs htail]
      · have := hhigh hc
        omega

theorem hexDigest_ascii (d : HexDigest) : ∀ c ∈ d.hex.data, c.toNat < 128 := by
  intro c hc
  exact isLowerHexDigit_ascii c (List.all_eq_true.mp d.all_hex c hc)

theorem hexDigest_utf8_length (d : HexDigest) : (utf8Bytes d.hex).length = 64 := by
  unfold utf8Bytes
  rw [flatMap_utf8_ascii _ (hexDigest_ascii d), List.length_map, d.length_eq]

theorem utf8Bytes_eq_hexDigest (s : String) (d : HexDigest) :
    utf8Bytes d.hex = utf8Bytes s ↔ s = d.hex := by
  constructor
  · intro h
    apply String.ext
    exact flatMap_utf8_eq_ascii d.hex.data (hexDigest_ascii d) s.data h.symm
  · intro h
    rw [h]

/-! ## Lemmas on the signature check -/

theorem sha256Prefix_data : "sha256=".data = ['s', 'h', 'a', '2', '5', '6', '='] := by decide

theorem replaceFirstChars_prefix (post : List Char) :
    replaceFirstChars ['s', 'h', 'a', '2', '5', '6', '='] []
      (['s', 'h', 'a', '2', '5', '6', '='] ++ post) = post := by
  simp [replaceFirstChars, List.isPrefixOf]

theorem replaceFirstChars_insert (pre post : List Char) (hpre : ∀ c ∈ pre, c ≠ 's') :
    replaceFirstChars ['s', 'h', 'a', '2', '5', '6', '='] []
      (pre ++ (['s', 'h', 'a', '2', '5', '6', '='] ++ post)) = pre ++ post := by
  induction pre with
  | nil => exact replaceFirstChars_prefix post
  | cons c pre ih =>
    have hc : c ≠ 's' := hpre c (List.mem_cons_self _ _)
    have hne : ('s' == c) = false := by
      simp only [beq_eq_false_iff_ne, ne_eq]
      exact fun h => hc h.symm
    rw [List.cons_append, replaceFirstChars]
    simp only [List.isPrefixOf, hne, Bool.false_and, Bool.false_eq_true, if_false]
    rw [ih (fun x hx => hpre x (List.mem_cons_of_mem _ hx))]
    rfl

theorem replaceFirstChars_absent (h : List Char) (hh : ∀ c ∈ h, c ≠ 's') :
    replaceFirstChars ['s', 'h', 'a', '2', '5', '6', '='] [] h = h := by
  induction h with
  | nil => simp [replaceFirstChars]
  | cons c cs ih =>
    have hc : c ≠ 's' := hh c (List.mem_cons_self _ _)
    have hne : ('s' == c) = false := by
      simp only [beq_eq_false_iff_ne, ne_eq]
      exact fun h => hc h.symm
    rw [replaceFirstChars]
    simp only [List.isPrefixOf, hne, Bool.false_and, Bool.false_eq_true, if_false]
    rw [ih (fun x hx => hh x (List.mem_cons_of_mem _ hx))]

theorem replaceFirstChars_cases (pat h : List Char) (hpat : pat ≠ []) :
    replaceFirstChars pat [] h = h ∨
      ∃ pre post, h = pre ++ (pat ++ post) ∧ replaceFirstChars pat [] h = pre ++ post := by
  induction h with
  | nil => left; simp [replaceFirstChars, hpat]
  | cons c cs ih =>
    rw [replaceFirstChars]
    by_cases hp : pat.isPrefixOf (c :: cs) = true
    · right
      obtain ⟨t, ht⟩ := List.isPrefixOf_iff_prefix.mp hp
      refine ⟨[], t, by simpa using ht.symm, ?_⟩
      simp only [hp, if_true, List.nil_append]
      rw [← ht, List.drop_left]
    · simp only [hp, if_false, Bool.false_eq_true]
      rcases ih with h1 | ⟨pre, post, h1, h2⟩
      · left; rw [h1]
      · right
        exact ⟨c :: pre, post, by rw [h1]; rfl, by rw [h2]; rfl⟩

theorem replaceFirst_prefixed (hex : String) : replaceFirst ("sha256=" ++ hex) "sha256=" "" = hex := by
  apply String.ext
  unfold replaceFirst
  simp only [String.data_append, sha256Prefix_data]
  exact replaceFirstChars_prefix hex.data

theorem strTruthy_some (s : String) (h : s ≠ "") : strTruthy (some s) = true := by
  simp [strTruthy, h]

theorem isRequestSignatureValid_spec (P : Platform) (secret body header : String)
    (hs : secret ≠ "") (hh : header ≠ "") :
    Basic.isRequestSignatureValid P (some secret) (some body) (some header) =
      if (utf8Bytes (replaceFirst header "sha256=" "")).length = 64 then
        .ok (decide (replaceFirst header "sha256=" "" = (P.hmacSha256Hex secret body).hex))
      else .error .rangeError := by
  unfold Basic.isRequestSignatureValid
  simp only [strTruthy_some secret hs, strTruthy_some header hh]
  unfold timingSafeEqual
  rw [hexDigest_utf8_length]
  by_cases hlen : (utf8Bytes (replaceFirst header "sha256=" "")).length = 64
  · have hlen2 : ¬ (64 ≠ (utf8Bytes (replaceFirst header "sha256=" "")).length) := by
      rw [hlen]; simp
    simp only [hlen, hlen2, if_true, if_false]
    by_cases heq : replaceFirst header "sha256=" "" = (P.hmacSha256Hex secret body).hex
    · have hb := (utf8Bytes_eq_hexDigest _ (P.hmacSha256Hex secret body)).mpr heq
      simp [heq, hb]
    · have hb : ¬ utf8Bytes (P.hmacSha256Hex secret body).hex
          = utf8Bytes (replaceFirst header "sha256=" "") :=
        fun h => heq ((utf8Bytes_eq_hexDigest _ (P.hmacSha256Hex secret body)).mp h)
      simp [heq, hb]
  · have hlen2 : 64 ≠ (utf8Bytes (replaceFirst header "sha256=" "")).length :=
      fun h => hlen h.symm
    simp only [hlen, hlen2, if_true, if_false, ne_eq, not_false_eq_true]

theorem replaceFirst_data (header : String) :
    (replaceFirst header "sha256=" "").data
      = replaceFirstChars ['s', 'h', 'a', '2', '5', '6', '='] [] header.data := by
  unfold replaceFirst
  rw [sha256Prefix_data]

theorem hexDigest_no_s (d : HexDigest) : ∀ c ∈ d.hex.data, c ≠ 's' := by
  intro c hc
  exact isLowerHexDigit_ne_s c (List.all_eq_true.mp d.all_hex c hc)

theorem replaceFirst_eq_hexDigest_iff (header : String) (d : HexDigest) :
    replaceFirst header "sha256=" "" = d.hex ↔
      (header = d.hex ∨
        ∃ pre post : String, header = pre ++ "sha256=" ++ post ∧ pre ++ post = d.hex) := by
  constructor
  · intro h
    have hd : replaceFirstChars ['s', 'h', 'a', '2', '5', '6', '='] [] header.data = d.hex.data := by
      rw [← replaceFirst_data, h]
    rcases replaceFirstChars_cases ['s', 'h', 'a', '2', '5', '6', '='] header.data
        (by simp) with h1 | ⟨pre, post, h1, h2⟩
    · left
      apply String.ext
      rw [← h1, hd]
    · right
      refine ⟨⟨pre⟩, ⟨post⟩, ?_, ?_⟩
      · apply String.ext
        rw [String.data_append, String.data_append, sha256Prefix_data, h1, List.append_assoc]
      · apply String.ext
        rw [String.data_append, ← h2, hd]
  · intro h
    apply String.ext
    rw [replaceFirst_data]
    rcases h with h | ⟨pre, post, h1, h2⟩
    · rw [h]
      exact replaceFirstChars_absent _ (hexDigest_no_s d)
    · have hpre : ∀ c ∈ pre.data, c ≠ 's' := by
        intro c hc
        apply hexDigest_no_s d
        rw [← h2, String.data_append]
        exact List.mem_append_left _ hc
      rw [h1, String.data_append, String.data_append, sha256Prefix_data, List.append_assoc,
        replaceFirstChars_insert _ _ hpre, ← String.data_append, h2]

/-! ## Lemmas on `verifySignature` of `lamda-handler.js` -/

theorem expectedSignature_ascii (d : HexDigest) :
    ∀ c ∈ ("sha256=" ++ d.hex).data, c.toNat < 128 := by
  intro c hc
  rw [String.data_append, sha256Prefix_data] at hc
  rcases List.mem_append.mp hc with h | h
  · have hprefix : ∀ x ∈ ['s', 'h', 'a', '2', '5', '6', '='], x.toNat < 128 := by decide
    exact hprefix c h
  · exact hexDigest_ascii d c h

theorem utf8Bytes_eq_expectedSignature (s : String) (d : HexDigest) :
    utf8Bytes ("sha256=" ++ d.hex) = utf8Bytes s ↔ s = "sha256=" ++ d.hex := by
  constructor
  · intro h
    apply String.ext
    exact flatMap_utf8_eq_ascii _ (expectedSignature_ascii d) s.data h.symm
  · intro h
    rw [h]

theorem verifySignature_eq_true_iff (P : Platform) (secret body : String) (signature : Option String)
    (hs : secret ≠ "") :
    Lambda.verifySignature P (some secret) (some body) signature = true ↔
      signature = some ("sha256=" ++ (P.hmacSha256Hex secret body).hex) := by
  unfold Lambda.verifySignature
  simp only [strTruthy_some secret hs]
  cases signature with
  | none => simp
  | some received =>
    unfold timingSafeEqual
    by_cases hlen : (utf8Bytes ("sha256=" ++ (P.hmacSha256Hex secret body).hex)).length
        ≠ (utf8Bytes received).length
    · have hne : received ≠ "sha256=" ++ (P.hmacSha256Hex secret body).hex := by
        intro h
        rw [h] at hlen
        exact hlen rfl
      simp [hlen, hne]
    · by_cases heq : received = "sha256=" ++ (P.hmacSha256Hex secret body).hex
      · have hb := (utf8Bytes_eq_expectedSignature received (P.hmacSha256Hex secret body)).mpr heq
        simp [hlen, hb, heq]
      · have hb : ¬ utf8Bytes ("sha256=" ++ (P.hmacSha256Hex secret body).hex)
            = utf8Bytes received :=
          fun h => heq ((utf8Bytes_eq_expectedSignature received _).mp h)
        simp [hlen, hb, heq]

theorem expectedSignature_length (d : HexDigest) : ("sha256=" ++ d.hex).length = 71 := by
  have h64 : d.hex.length = 64 := d.length_eq
  rw [String.length_append, h64]
  rfl

/-! ## Lemmas on the handler -/

theorem handler_of_verifiedPost (P : Platform) (env : Env) (event : Event) (parsed : Json)
    (hv : Basic.VerifiedPost P env event parsed) :
    Basic.handler P env event = Basic.catchAll (Basic.handleFlow P env (some parsed)) := by
  obtain ⟨hmethod, raw, headers, hraw, hheaders, hparse, hvalid⟩ := hv
  have hpg : ¬ ("POST" = "GET") := by decide
  unfold Basic.handler Basic.handlerTry
  simp only [hpg, hmethod, if_true, if_false, hraw, hheaders]
  cases hb64 : event.isBase64Encoded with
  | false =>
    rw [hb64] at hparse hvalid
    simp only [Bool.false_eq_true, if_false] at hparse hvalid
    simp only [Bool.false_eq_true, if_false, Except.map, hparse, hvalid]
  | true =>
    rw [hb64] at hparse hvalid
    simp only [if_true] at hparse hvalid
    simp only [if_true, Except.map, hparse, hvalid]

theorem verifiedPost_postEvent (P : Platform) (env : Env) (body signature : String) (parsed : Json)
    (hparse : P.jsonParse body = .ok parsed)
    (hvalid : Basic.isRequestSignatureValid P env.APP_SECRET (some body) (some signature)
      = .ok true) :
    Basic.VerifiedPost P env (postEvent body signature) parsed := by
  refine ⟨rfl, body, [("x-hub-signature-256", signature)], rfl, rfl, ?_, ?_⟩
  · exact hparse
  · have hl : List.lookup "x-hub-signature-256" [("x-hub-signature-256", signature)]
        = some signature := by
      simp [List.lookup]
    rw [hl]
    exact hvalid

theorem isRequestSignatureValid_prefixed (P : Platform) (secret body : String) (hs : secret ≠ "") :
    Basic.isRequestSignatureValid P (some secret) (some body)
      (some ("sha256=" ++ (P.hmacSha256Hex secret body).hex)) = .ok true := by
  have hnonempty : "sha256=" ++ (P.hmacSha256Hex secret body).hex ≠ "" := by
    intro h
    have hd := congrArg String.data h
    rw [String.data_append, sha256Prefix_data] at hd
    exact List.noConfusion hd
  rw [isRequestSignatureValid_spec P _ _ _ hs hnonempty, replaceFirst_prefixed,
    hexDigest_utf8_length]
  simp

theorem decryptRequest_ok_calls (P : Platform) (body : JsValue) (pem pass : String)
    (calls : List Call) (request : DecryptedRequest)
    (h : Basic.decryptRequest P body pem pass = ⟨calls, .ok request⟩) :
    calls = [.decryptRequest, .createPrivateKey, .privateDecrypt, .aesGcmDecrypt] := by
  unfold Basic.decryptRequest at h
  split at h
  · simp at h
  · simp at h
  · split at h
    · simp at h
    · simp only [] at h
      split at h
      · simp at h
      · split at h
        · simp at h
        · split at h
          · simp at h
          · split at h
            · simp at h
            · split at h
              · simp at h
              · simp only [Outcome.mk.injEq] at h
                exact h.1.symm

theorem getNextScreen_unhandled (d : Json)
    (hping : (d.prop "action").isString "ping" = false)
    (herr : ((d.prop "data").optProp "error").truthy = false)
    (hinit : (d.prop "action").isString "INIT" = false)
    (hexch : ((d.prop "action").isString "data_exchange"
      && (d.prop "screen").isString "MY_SCREEN") = false) :
    ∃ e, Basic.getNextScreen d = .error e := by
  cases d with
  | null => exact ⟨_, rfl⟩
  | bool b =>
    refine ⟨.error Basic.unhandledMessage, ?_⟩
    unfold Basic.getNextScreen
    simp only [hping, herr, hinit, hexch, Bool.false_eq_true, if_false]
  | num n =>
    refine ⟨.error Basic.unhandledMessage, ?_⟩
    unfold Basic.getNextScreen
    simp only [hping, herr, hinit, hexch, Bool.false_eq_true, if_false]
  | str t =>
    refine ⟨.error Basic.unhandledMessage, ?_⟩
    unfold Basic.getNextScreen
    simp only [hping, herr, hinit, hexch, Bool.false_eq_true, if_false]
  | arr items =>
    refine ⟨.error Basic.unhandledMessage, ?_⟩
    unfold Basic.getNextScreen
    simp only [hping, herr, hinit, hexch, Bool.false_eq_true, if_false]
  | obj fields =>
    refine ⟨.error Basic.unhandledMessage, ?_⟩
    unfold Basic.getNextScreen
    simp only [hping, herr, hinit, hexch, Bool.false_eq_true, if_false]

/-! ## Lemmas on the handler of `whatsapp-flow-handler/index.js` -/

theorem whatsapp_handlerTry_of_postsEnvelope (P : Platform) (key : String) (event : Event)
    (envelope : Json) (hp : WhatsappFlow.PostsEnvelope P event envelope) :
    WhatsappFlow.handlerTry P key event = WhatsappFlow.handleEnvelope P key envelope := by
  obtain ⟨hmethod, hnull, raw, hraw, hparse⟩ := hp
  unfold WhatsappFlow.handlerTry
  have hpost : ¬ (event.httpMethod ≠ "POST") := by simp [hmethod]
  simp only [hpost, if_false, hraw]
  cases hb64 : event.isBase64Encoded with
  | false =>
    rw [hb64] at hparse
    simp only [Bool.false_eq_true, if_false] at hparse
    simp only [Bool.false_eq_true, if_false, Except.map, hparse]
  | true =>
    rw [hb64] at hparse
    simp only [if_true] at hparse
    simp only [if_true, Except.map, hparse]

theorem whatsapp_postsEnvelope_postEvent (P : Platform) (body signature : String) (envelope : Json)
    (hnull : envelope ≠ .null) (hparse : P.jsonParse body = .ok envelope) :
    WhatsappFlow.PostsEnvelope P (postEvent body signature) envelope :=
  ⟨rfl, hnull, body, rfl, hparse⟩

theorem whatsapp_handleEnvelope_present (P : Platform) (key : String) (envelope : Json)
    (hf : WhatsappFlow.FieldsPresent envelope) :
    WhatsappFlow.handleEnvelope P key envelope =
      match WhatsappFlow.decryptEnvelope P key (envelope.prop "encrypted_aes_key")
          (envelope.prop "encrypted_flow_data") (envelope.prop "initial_vector") with
      | .error _ =>
        .ok ⟨421, [], some (P.jsonStringify (.obj [("error", .str "Decryption error")]))⟩
      | .ok request =>
        match request.decryptedBody with
        | .null => .error (.lib .typeError)
        | decryptedBody =>
          if !(decryptedBody.prop "version").isString "3.0" then
            match WhatsappFlow.encryptReply P (.obj [("error", .str "Unsupported version")])
                request.aesKeyBuffer request.initialVectorBuffer with
            | .error e => .error (.lib e)
            | .ok output => .ok ⟨200, [("Content-Type", "text/plain")], some output⟩
          else
            match WhatsappFlow.encryptReply P
                (if (decryptedBody.prop "action").isString "ping" then
                  .obj [("data", .obj [("status", .str "active")])]
                else .obj [("error", .str "Unsupported action")])
                request.aesKeyBuffer request.initialVectorBuffer with
            | .error e => .error (.lib e)
            | .ok base64Response =>
              .ok ⟨200, [("Content-Type", "text/plain")], some base64Response⟩ := by
  obtain ⟨h1, h2, h3⟩ := hf
  unfold WhatsappFlow.handleEnvelope
  simp only [h1, h2, h3, Bool.not_true, Bool.or_self, Bool.false_eq_true, if_false]

/-! ## Lemmas on the nonce transform -/

theorem toUint8_bitNot_byte (b : Nat) (h : b < 256) :
    toUint8 (bitNot (b : Int)) = 255 - b := by
  unfold toUint8 bitNot toInt32
  omega

theorem bitNot_byte (b : Nat) (h : b < 256) : bitNot (b : Int) = -(b : Int) - 1 := by
  unfold bitNot toInt32
  omega

theorem flippedIvArray_foldl (iv : Buffer) (acc : List Int) :
    iv.foldl (fun (flipped_iv : List Int) (b : Nat) => flipped_iv ++ [bitNot (b : Int)]) acc
      = acc ++ iv.map (fun (b : Nat) => bitNot (b : Int)) := by
  induction iv generalizing acc with
  | nil => simp
  | cons b rest ih => rw [List.foldl_cons, ih]; simp

theorem flippedIvArray_eq_map (iv : Buffer) :
    Basic.flippedIvArray iv = iv.map (fun (b : Nat) => bitNot (b : Int)) := by
  unfold Basic.flippedIvArray
  rw [flippedIvArray_foldl]
  simp

theorem responseNonce_eq_map (iv : Buffer) (h : BufferWF iv) :
    Basic.responseNonce iv = iv.map (fun b => 255 - b) := by
  unfold Basic.responseNonce bufferFromArray
  rw [flippedIvArray_eq_map, List.map_map]
  refine List.map_congr_left ?_
  intro b hb
  rw [Function.comp_apply]
  exact toUint8_bitNot_byte b (h b hb)

set_option maxRecDepth 100000 in
theorem xor_255_byte : ∀ b : Fin 256, b.val ^^^ 255 = 255 - b.val := by decide

theorem toUint8_bitXor_byte (b : Nat) (h : b < 256) : toUint8 (bitXor b 255) = 255 - b := by
  unfold toUint8 bitXor
  have hx : b ^^^ 255 = 255 - b := xor_255_byte ⟨b, h⟩
  rw [hx]
  omega

theorem setLoop_length (v : Nat → Nat) (init : List Nat) (k : Nat) :
    ((List.range k).foldl (fun buf i => buf.set i (v i)) init).length = init.length := by
  induction k with
  | zero => simp
  | succ k ih => rw [List.range_succ, List.foldl_append]; simp [ih]

theorem setLoop_getElem? (v : Nat → Nat) (init : List Nat) (k i : Nat) :
    ((List.range k).foldl (fun buf i => buf.set i (v i)) init)[i]?
      = if i < k ∧ i < init.length then some (v i) else init[i]? := by
  induction k with
  | zero => simp
  | succ k ih =>
    rw [List.range_succ, List.foldl_append]
    simp only [List.foldl_cons, List.foldl_nil]
    rw [List.getElem?_set, setLoop_length, ih]
    by_cases hki : k = i
    · subst hki
      by_cases hk : k < init.length
      · simp [hk]
      · simp [hk]; omega
    · have : (i < k + 1) ↔ i < k := by omega
      simp [hki, this]

theorem flippedIV_eq_map (iv : Buffer) (h : BufferWF iv) :
    WhatsappFlow.flippedIV iv = iv.map (fun b => 255 - b) := by
  unfold WhatsappFlow.flippedIV bufferSet bufferAlloc bufferGet
  apply List.ext_getElem?
  intro i
  rw [setLoop_getElem? (fun i => toUint8 (bitXor (iv.getD i 0) 255))]
  rw [List.getElem?_map, List.length_replicate]
  by_cases hi : i < iv.length
  · have hb : iv[i] < 256 := h _ (List.getElem_mem hi)
    simp [hi, List.getD_eq_getElem?_getD, List.getElem?_eq_getElem hi,
      toUint8_bitXor_byte _ hb]
  · have hle : iv.length ≤ i := Nat.le_of_not_lt hi
    simp [hi, List.getElem?_eq_none hle]
    exact hle

theorem complement_wf (N : Buffer) : BufferWF (N.map (fun b => 255 - b)) := by
  intro x hx
  rcases List.mem_map.mp hx with ⟨b, _, rfl⟩
  omega

theorem complement_complement (N : Buffer) (hN : BufferWF N) :
    (N.map (fun b => 255 - b)).map (fun b => 255 - b) = N := by
  rw [List.map_map]
  conv_rhs => rw [← List.map_id N]
  refine List.map_congr_left ?_
  intro b hb
  have := hN b hb
  simp only [Function.comp_apply, id_eq]
  omega

/-! ## The response nonce: theorems -/

/-- C1: in `encryptResponse` of `basic/index.js` the nonce handed to the cipher
has the length of the request IV, the array built by the loop holds the negative
number `-N[i] - 1` at every position, and `Buffer.from` reduces it to the byte
`255 - N[i]`, the 8-bit complement of `N[i]`; `encryptResponse` passes exactly
that buffer to the cipher. -/
theorem encryptResponse_nonce_is_complement (N : Buffer) (hN : BufferWF N) :
    (Basic.responseNonce N).length = N.length ∧
    BufferWF (Basic.responseNonce N) ∧
    (∀ (i : Nat) (hi : i < N.length),
      (Basic.flippedIvArray N)[i]? = some (-(N[i] : Int) - 1) ∧
      (Basic.responseNonce N)[i]? = some (255 - N[i])) ∧
    ∀ (P : Platform) (R : Json) (K : Buffer),
      Basic.encryptResponse P R K N =
        match P.aesGcmEncrypt K (N.map (fun b => 255 - b)) (utf8Bytes (P.jsonStringify R)) with
        | .error e => .error e
        | .ok (encrypted, authTag) => .ok (P.base64Encode (encrypted ++ authTag)) := by
  refine ⟨?_, ?_, ?_, ?_⟩
  · rw [responseNonce_eq_map N hN, List.length_map]
  · rw [responseNonce_eq_map N hN]
    exact complement_wf N
  · intro i hi
    constructor
    · rw [flippedIvArray_eq_map, List.getElem?_map, List.getElem?_eq_getElem hi]
      simp only [Option.map_some']
      rw [bitNot_byte _ (hN _ (List.getElem_mem hi))]
    · rw [responseNonce_eq_map N hN, List.getElem?_map, List.getElem?_eq_getElem hi]
      rfl
  · intro P R K
    unfold Basic.encryptResponse
    rw [responseNonce_eq_map N hN]

/-- The statement of C1 at a 12-byte request IV. -/
theorem encryptResponse_nonce_is_complement_witness :
    BufferWF sampleIv ∧
    ((Basic.responseNonce sampleIv).length = sampleIv.length ∧
      BufferWF (Basic.responseNonce sampleIv) ∧
      (∀ (i : Nat) (hi : i < sampleIv.length),
        (Basic.flippedIvArray sampleIv)[i]? = some (-(sampleIv[i] : Int) - 1) ∧
        (Basic.responseNonce sampleIv)[i]? = some (255 - sampleIv[i])) ∧
      ∀ (P : Platform) (R : Json) (K : Buffer),
        Basic.encryptResponse P R K sampleIv =
          match P.aesGcmEncrypt K (sampleIv.map (fun b => 255 - b))
              (utf8Bytes (P.jsonStringify R)) with
          | .error e => .error e
          | .ok (encrypted, authTag) => .ok (P.base64Encode (encrypted ++ authTag))) :=
  ⟨by decide, encryptResponse_nonce_is_complement sampleIv (by decide)⟩

/-- C2: the response-nonce transform is self-inverse on every nonce, both as
`encryptResponse` of `basic/index.js` computes it and as the handler of
`whatsapp-flow-handler/index.js` computes it. -/
theorem nonce_transform_involutive (N : Buffer) (hN : BufferWF N) :
    Basic.responseNonce (Basic.responseNonce N) = N ∧
    WhatsappFlow.flippedIV (WhatsappFlow.flippedIV N) = N := by
  constructor
  · rw [responseNonce_eq_map N hN, responseNonce_eq_map _ (complement_wf N)]
    exact complement_complement N hN
  · rw [flippedIV_eq_map N hN, flippedIV_eq_map _ (complement_wf N)]
    exact complement_complement N hN

/-- The statement of C2 at a 16-byte nonce. -/
theorem nonce_transform_involutive_witness :
    BufferWF [0, 255, 1, 254, 2, 253, 3, 252, 4, 251, 5, 250, 6, 249, 7, 248] ∧
    (Basic.responseNonce
        (Basic.responseNonce [0, 255, 1, 254, 2, 253, 3, 252, 4, 251, 5, 250, 6, 249, 7, 248])
        = [0, 255, 1, 254, 2, 253, 3, 252, 4, 251, 5, 250, 6, 249, 7, 248] ∧
      WhatsappFlow.flippedIV
        (WhatsappFlow.flippedIV [0, 255, 1, 254, 2, 253, 3, 252, 4, 251, 5, 250, 6, 249, 7, 248])
        = [0, 255, 1, 254, 2, 253, 3, 252, 4, 251, 5, 250, 6, 249, 7, 248]) :=
  ⟨by decide, nonce_transform_involutive _ (by decide)⟩

/-- C3: the response nonce of `encryptResponse` has a byte at every position
of the request nonce, and that byte differs from the byte of the request nonce
at the same position; so for a non-empty request nonce the two nonces differ. -/
theorem nonce_transform_no_fixed_byte (N : Buffer) (hN : BufferWF N) :
    (Basic.responseNonce N).length = N.length ∧
    (∀ (i : Nat) (hi : i < N.length),
      ∃ b, (Basic.responseNonce N)[i]? = some b ∧ b ≠ N[i]) ∧
    (N ≠ [] → Basic.responseNonce N ≠ N) := by
  have hpos : ∀ (i : Nat) (hi : i < N.length),
      ∃ b, (Basic.responseNonce N)[i]? = some b ∧ b ≠ N[i] := by
    intro i hi
    refine ⟨255 - N[i], ?_, ?_⟩
    · rw [responseNonce_eq_map N hN, List.getElem?_map, List.getElem?_eq_getElem hi]
      rfl
    · omega
  refine ⟨?_, hpos, ?_⟩
  · rw [responseNonce_eq_map N hN, List.length_map]
  · intro hne heq
    have h0 : 0 < N.length := List.length_pos.mpr hne
    obtain ⟨b, hb, hbne⟩ := hpos 0 h0
    rw [heq, List.getElem?_eq_getElem h0, Option.some.injEq] at hb
    exact hbne hb.symm

/-- The statement of C3 at a 12-byte request nonce. -/
theorem nonce_transform_no_fixed_byte_witness :
    BufferWF sampleIv ∧
    ((Basic.responseNonce sampleIv).length = sampleIv.length ∧
      (∀ (i : Nat) (hi : i < sampleIv.length),
        ∃ b, (Basic.responseNonce sampleIv)[i]? = some b ∧ b ≠ sampleIv[i]) ∧
      (sampleIv ≠ [] → Basic.responseNonce sampleIv ≠ sampleIv)) :=
  ⟨by decide, nonce_transform_no_fixed_byte sampleIv (by decide)⟩

/-! ## The response round trip -/

/-- C4, counterexample: on the test platform whose cipher checks the IV as
Node does, `encryptResponse` on an empty request IV returns no text: the cipher
refuses the empty nonce with `ERR_CRYPTO_INVALID_IV`. -/
theorem encryptResponse_empty_iv_throws :
    Basic.encryptResponse ivCheckingPlatform activeReply (List.replicate 16 1) []
      = .error (.cryptoError "ERR_CRYPTO_INVALID_IV") := by
  decide

/-- C4, amended: for every reply that is JSON-serialisable, every 16-byte key
and every request IV of 1 to 128 bytes, `encryptResponse` returns a base64
text, and base64-decoding it, splitting off the last 16 bytes as the tag,
decrypting and verifying under the same key with the byte-wise complement of
the request IV and parsing the text gives the reply back (the cipher and the
base64 codec are taken with their laws of correctness). -/
theorem encryptResponse_roundtrip (P : Platform) (R : Json) (K N : Buffer)
    (hK : K.length = 16) (hN : BufferWF N) (hlen : 1 ≤ N.length ∧ N.length ≤ 128)
    (hAead : P.AeadCorrect) (hB64 : P.Base64Correct) (hR : P.Serialisable R) :
    ∃ wire, Basic.encryptResponse P R K N = .ok wire ∧
      Basic.decryptFlowData P K (P.base64Decode wire) (N.map (fun b => 255 - b)) = .ok R := by
  obtain ⟨encrypted, authTag, hEnc, hLen, hWfE, hWfT, hDec⟩ :=
    hAead K (N.map (fun b => 255 - b)) (utf8Bytes (P.jsonStringify R)) hK
      (gcmIvAccepted_complement N hlen) (utf8Bytes_wf _)
  refine ⟨P.base64Encode (encrypted ++ authTag), ?_, ?_⟩
  · unfold Basic.encryptResponse
    rw [responseNonce_eq_map N hN, hEnc]
  · rw [hB64 _ (bufferWF_append _ _ hWfE hWfT)]
    unfold Basic.decryptFlowData
    rw [bufferSubarray_body, bufferSubarray_tag]
    have hsplit : (encrypted ++ authTag).length - 16 = encrypted.length := by
      rw [List.length_append, hLen]; omega
    rw [hsplit, List.take_left, List.drop_left]
    simp only [hDec]
    rw [hR.1, hR.2]

/-- The statement of C4 as amended, on the test platform whose cipher binds
the tag to the IV, for the health-check reply, a 16-byte key and a 12-byte
request IV. -/
theorem encryptResponse_roundtrip_witness :
    (List.replicate 16 1 : Buffer).length = 16 ∧ BufferWF sampleIv ∧
    (1 ≤ sampleIv.length ∧ sampleIv.length ≤ 128) ∧ ivCheckingPlatform.AeadCorrect ∧
    ivCheckingPlatform.Base64Correct ∧ ivCheckingPlatform.Serialisable activeReply ∧
    ∃ wire,
      Basic.encryptResponse ivCheckingPlatform activeReply (List.replicate 16 1) sampleIv
        = .ok wire ∧
      Basic.decryptFlowData ivCheckingPlatform (List.replicate 16 1)
        (ivCheckingPlatform.base64Decode wire) (sampleIv.map (fun b => 255 - b))
        = .ok activeReply :=
  ⟨by decide, by decide, by decide, ivCheckingPlatform_aead, ivCheckingPlatform_base64,
    ivCheckingPlatform_serialisable,
    encryptResponse_roundtrip ivCheckingPlatform activeReply (List.replicate 16 1) sampleIv
      (by decide) (by decide) (by decide) ivCheckingPlatform_aead ivCheckingPlatform_base64
      ivCheckingPlatform_serialisable⟩

/-! ## The signature check -/

/-- C5: on the sample `POST` event of `basic/test-env.js`, whose header
`sha256=dummy-signature` is shorter than the digest, `isRequestSignatureValid`
of `basic/index.js` does not return `false`: `timingSafeEqual` throws a
`RangeError`, and the handler answers with status 500 and `Server error`, not
with status 432. -/
theorem isRequestSignatureValid_throws_on_length_mismatch (P : Platform) (pem pass : String) :
    Basic.isRequestSignatureValid P (some "app-secret") testEnvPostEvent.body
        (some "sha256=dummy-signature") = .error .rangeError ∧
    Basic.handler P ⟨pem, pass, some "app-secret"⟩ testEnvPostEvent
      = ⟨[], ⟨500, [], some "Server error"⟩⟩ := by
  have hsig : Basic.isRequestSignatureValid P (some "app-secret") testEnvPostEvent.body
      (some "sha256=dummy-signature") = .error .rangeError := by
    unfold testEnvPostEvent
    simp only
    rw [isRequestSignatureValid_spec P _ _ _ (by decide) (by decide)]
    rw [if_neg (by decide)]
  refine ⟨hsig, ?_⟩
  unfold Basic.handler Basic.catchAll Basic.handlerTry
  have hm2 : testEnvPostEvent.httpMethod = "POST" := by decide
  have hb : testEnvPostEvent.isBase64Encoded = false := rfl
  have hh : testEnvPostEvent.headers = some [("x-hub-signature-256", "sha256=dummy-signature")] :=
    rfl
  have hl : List.lookup "x-hub-signature-256"
      [("x-hub-signature-256", "sha256=dummy-signature")] = some "sha256=dummy-signature" := by
    decide
  have hpg : ¬ ("POST" = "GET") := by decide
  simp only [hm2, hpg, hb, if_true, if_false, Bool.false_eq_true]
  cases hbody : testEnvPostEvent.body with
  | none => exact absurd hbody (by decide)
  | some text =>
    rw [hbody] at hsig
    cases hparse : P.jsonParse text with
    | error e => simp only [Except.map, hparse]
    | ok parsed => simp only [Except.map, hparse, hh, hl, hsig]

/-- C8: a `POST` whose body is valid JSON and whose signature header is
`sha256=` followed by the HMAC-SHA256 of another body, with a digest different
from that of the delivered body, is answered with exactly `{statusCode: 432}`,
and the handler makes no call: `decryptRequest` is not invoked. -/
theorem handler_rejects_signature_of_other_body (P : Platform) (env : Env) (event : Event)
    (secret raw body other : String) (parsed : Json) (headers : List (String × String))
    (hmethod : event.httpMethod = "POST")
    (hraw : event.body = some raw)
    (hbody : body = if event.isBase64Encoded then P.utf8Decode (P.base64Decode raw) else raw)
    (hparse : P.jsonParse body = .ok parsed)
    (hsecret : env.APP_SECRET = some secret) (hs : secret ≠ "")
    (hheaders : event.headers = some headers)
    (hsig : headers.lookup "x-hub-signature-256"
      = some ("sha256=" ++ (P.hmacSha256Hex secret other).hex))
    (hne : (P.hmacSha256Hex secret other).hex ≠ (P.hmacSha256Hex secret body).hex) :
    Basic.handler P env event = ⟨[], ⟨432, [], none⟩⟩ := by
  have hnonempty : "sha256=" ++ (P.hmacSha256Hex secret other).hex ≠ "" := by
    intro h
    have hd := congrArg String.data h
    rw [String.data_append, sha256Prefix_data] at hd
    exact List.noConfusion hd
  have hvalid : Basic.isRequestSignatureValid P (some secret) (some body)
      (some ("sha256=" ++ (P.hmacSha256Hex secret other).hex)) = .ok false := by
    rw [isRequestSignatureValid_spec P _ _ _ hs hnonempty, replaceFirst_prefixed,
      hexDigest_utf8_length]
    simp [hne]
  have hpg : ¬ ("POST" = "GET") := by decide
  unfold Basic.handler Basic.catchAll Basic.handlerTry
  simp only [hpg, hmethod, if_true, if_false, hraw, hheaders, hsig, hsecret]
  cases hb64 : event.isBase64Encoded with
  | false =>
    rw [hb64] at hbody
    simp only [Bool.false_eq_true, if_false] at hbody
    subst hbody
    simp [Except.map, hparse, hvalid]
  | true =>
    rw [hb64] at hbody
    simp only [if_true] at hbody
    rw [← hbody]
    simp [Except.map, hparse, hvalid]

/-- The statement of C8 on the test platform: the body is an empty JSON object
and the header carries the HMAC-SHA256 of another text under the secret `key`. -/
theorem handler_rejects_signature_of_other_body_witness :
    Basic.handler testPlatform testEnv
      (postEvent "\x7b\x7d"
        "sha256=f7bc83f430538424b13298e6aa6fb143ef4d59a14946175997479dbc2d1a3cd8")
      = ⟨[], ⟨432, [], none⟩⟩ :=
  handler_rejects_signature_of_other_body testPlatform testEnv _ "key" "\x7b\x7d" "\x7b\x7d"
    "The quick brown fox jumps over the lazy dog" (.obj [])
    [("x-hub-signature-256",
      "sha256=f7bc83f430538424b13298e6aa6fb143ef4d59a14946175997479dbc2d1a3cd8")]
    rfl rfl rfl rfl rfl (by decide) rfl (by decide) (by decide)

/-- C10: without an app secret (the variable unset or empty) the signature
check succeeds for every body and every header, present or absent, in
`basic/index.js`, in `bookAppoitment/src/server.js` and in `lamda-handler.js`. -/
theorem signature_check_passes_without_secret (P : Platform) (body header : Option String)
    (req : Request) :
    Basic.isRequestSignatureValid P none body header = .ok true ∧
    Basic.isRequestSignatureValid P (some "") body header = .ok true ∧
    Server.isRequestSignatureValid P none req = .ok true ∧
    Server.isRequestSignatureValid P (some "") req = .ok true ∧
    Lambda.verifySignature P none body header = true ∧
    Lambda.verifySignature P (some "") body header = true :=
  ⟨rfl, rfl, rfl, rfl, rfl, rfl⟩

/-! ## Decryption failures -/

/-- C6, counterexample: on the test platform, a request with a valid signature
and a key blob that unwraps, whose tag has one byte changed, is answered with
status 500, while the same request with a key blob that does not unwrap is
answered with status 421. -/
theorem handler_tag_failure_not_421 :
    Basic.handler testPlatform testEnv
        (postEvent (envelopeText "k" badTagWire) ("sha256=" ++ digestBadTagEnvelope.hex))
      = ⟨[.decryptRequest, .createPrivateKey, .privateDecrypt, .aesGcmDecrypt],
          ⟨500, [], none⟩⟩ ∧
    Basic.handler testPlatform testEnv
        (postEvent (envelopeText "x" pingWire) ("sha256=" ++ digestBadKeyEnvelope.hex))
      = ⟨[.decryptRequest, .createPrivateKey, .privateDecrypt], ⟨421, [], none⟩⟩ := by
  constructor
  · decide
  · decide

/-- C6, amended: when the signature check passes and the key blob is unwrapped,
but AES-GCM decryption fails (the tag does not verify), the handler of
`basic/index.js` returns exactly `{statusCode: 500}`, after the calls to
`decryptRequest`, `createPrivateKey`, `privateDecrypt` and the AES-GCM
decryption; its status code is not 421. -/
theorem handler_tag_failure_is_500 (P : Platform) (env : Env) (event : Event) (parsed : Json)
    (key : KeyObject) (keyBlob aesKey flowData iv : Buffer) (e : LibError)
    (hv : Basic.VerifiedPost P env event parsed) (hnull : parsed ≠ .null)
    (hkey : P.createPrivateKey env.PRIVATE_KEY env.PASSPHRASE = .ok key)
    (hblob : bufferFromBase64 P (parsed.prop "encrypted_aes_key") = .ok keyBlob)
    (hrsa : P.privateDecrypt key keyBlob = .ok aesKey)
    (hflow : bufferFromBase64 P (parsed.prop "encrypted_flow_data") = .ok flowData)
    (hiv : bufferFromBase64 P (parsed.prop "initial_vector") = .ok iv)
    (htag : P.aesGcmDecrypt aesKey iv (flowData.take (flowData.length - 16))
      (flowData.drop (flowData.length - 16)) = .error e) :
    Basic.handler P env event
      = ⟨[.decryptRequest, .createPrivateKey, .privateDecrypt, .aesGcmDecrypt],
          ⟨500, [], none⟩⟩ ∧
    (Basic.handler P env event).response.statusCode ≠ 421 := by
  have hres : Basic.handler P env event
      = ⟨[.decryptRequest, .createPrivateKey, .privateDecrypt, .aesGcmDecrypt],
          ⟨500, [], none⟩⟩ := by
    rw [handler_of_verifiedPost P env event parsed hv]
    have hsym : Basic.decryptFlowData P aesKey flowData iv = .error e := by
      unfold Basic.decryptFlowData
      rw [bufferSubarray_body, bufferSubarray_tag]
      simp only [htag]
    unfold Basic.catchAll Basic.handleFlow Basic.decryptRequest
    cases parsed with
    | null => exact absurd rfl hnull
    | bool b => simp only [hkey, hblob, hrsa, hflow, hiv, hsym]
    | num n => simp only [hkey, hblob, hrsa, hflow, hiv, hsym]
    | str t => simp only [hkey, hblob, hrsa, hflow, hiv, hsym]
    | arr items => simp only [hkey, hblob, hrsa, hflow, hiv, hsym]
    | obj fields => simp only [hkey, hblob, hrsa, hflow, hiv, hsym]
  refine ⟨hres, ?_⟩
  rw [hres]
  decide

/-- The statement of C6 as amended, on the test platform: the envelope whose
tag has one byte changed. -/
theorem handler_tag_failure_is_500_witness :
    Basic.handler testPlatform testEnv
        (postEvent (envelopeText "k" badTagWire) ("sha256=" ++ digestBadTagEnvelope.hex))
      = ⟨[.decryptRequest, .createPrivateKey, .privateDecrypt, .aesGcmDecrypt],
          ⟨500, [], none⟩⟩ ∧
    (Basic.handler testPlatform testEnv
        (postEvent (envelopeText "k" badTagWire)
          ("sha256=" ++ digestBadTagEnvelope.hex))).response.statusCode ≠ 421 :=
  handler_tag_failure_is_500 testPlatform testEnv _ (envelopeJson "k" badTagWire) ⟨1⟩ [107]
    (List.replicate 16 1) (testPlatform.base64Decode badTagWire)
    (testPlatform.base64Decode "AAAAAAAAAAAA") (.cryptoError "ERR_CRYPTO_AUTH_FAILED")
    (verifiedPost_postEvent testPlatform testEnv _ _ _ rfl (by decide))
    (fun h => Json.noConfusion h) rfl rfl rfl rfl rfl (by decide)

/-- C7, counterexample: on the test platform, with a passphrase that does not
open the private key, `createPrivateKey` fails, `decryptRequest` throws that
error and no `FlowEndpointException`, and the handler answers with status 500. -/
theorem decryptRequest_key_loading_failure_not_421 :
    Basic.decryptRequest testPlatform (some (envelopeJson "k" pingWire)) "PEM" "wrong"
      = ⟨[.decryptRequest, .createPrivateKey],
          .error (.lib (.cryptoError "ERR_OSSL_BAD_DECRYPT"))⟩ ∧
    Basic.handler testPlatform ⟨"PEM", "wrong", some "key"⟩
        (postEvent (envelopeText "k" pingWire) ("sha256=" ++ digestPingEnvelope.hex))
      = ⟨[.decryptRequest, .createPrivateKey], ⟨500, [], none⟩⟩ := by
  refine ⟨rfl, ?_⟩
  decide

/-- C7, amended: once the private key is loaded, every failure of the RSA-OAEP
`privateDecrypt` on the key blob is reported by `decryptRequest` as one
`FlowEndpointException` with status code 421, and the handler then returns
exactly `{statusCode: 421}`. -/
theorem decryptRequest_unwrap_failure_is_421 (P : Platform) (env : Env) (event : Event)
    (parsed : Json) (key : KeyObject) (keyBlob : Buffer) (e : LibError)
    (hv : Basic.VerifiedPost P env event parsed) (hnull : parsed ≠ .null)
    (hkey : P.createPrivateKey env.PRIVATE_KEY env.PASSPHRASE = .ok key)
    (hblob : bufferFromBase64 P (parsed.prop "encrypted_aes_key") = .ok keyBlob)
    (hrsa : P.privateDecrypt key keyBlob = .error e) :
    Basic.decryptRequest P (some parsed) env.PRIVATE_KEY env.PASSPHRASE
      = ⟨[.decryptRequest, .createPrivateKey, .privateDecrypt],
          .error (.flowEndpointException 421 Basic.keyUnwrapMessage)⟩ ∧
    Basic.handler P env event
      = ⟨[.decryptRequest, .createPrivateKey, .privateDecrypt], ⟨421, [], none⟩⟩ := by
  have hdec : Basic.decryptRequest P (some parsed) env.PRIVATE_KEY env.PASSPHRASE
      = ⟨[.decryptRequest, .createPrivateKey, .privateDecrypt],
          .error (.flowEndpointException 421 Basic.keyUnwrapMessage)⟩ := by
    unfold Basic.decryptRequest
    cases parsed with
    | null => exact absurd rfl hnull
    | bool b => simp only [hkey, hblob, hrsa]
    | num n => simp only [hkey, hblob, hrsa]
    | str t => simp only [hkey, hblob, hrsa]
    | arr items => simp only [hkey, hblob, hrsa]
    | obj fields => simp only [hkey, hblob, hrsa]
  refine ⟨hdec, ?_⟩
  rw [handler_of_verifiedPost P env event parsed hv]
  unfold Basic.catchAll Basic.handleFlow
  rw [hdec]

/-- The statement of C7 as amended, on the test platform: the envelope whose
key blob does not decrypt. -/
theorem decryptRequest_unwrap_failure_is_421_witness :
    Basic.decryptRequest testPlatform (some (envelopeJson "x" pingWire)) testEnv.PRIVATE_KEY
        testEnv.PASSPHRASE
      = ⟨[.decryptRequest, .createPrivateKey, .privateDecrypt],
          .error (.flowEndpointException 421 Basic.keyUnwrapMessage)⟩ ∧
    Basic.handler testPlatform testEnv
        (postEvent (envelopeText "x" pingWire) ("sha256=" ++ digestBadKeyEnvelope.hex))
      = ⟨[.decryptRequest, .createPrivateKey, .privateDecrypt], ⟨421, [], none⟩⟩ :=
  decryptRequest_unwrap_failure_is_421 testPlatform testEnv _ (envelopeJson "x" pingWire) ⟨1⟩
    [120] (.cryptoError "ERR_OSSL_RSA_OAEP_DECODING_ERROR")
    (verifiedPost_postEvent testPlatform testEnv _ _ _ rfl (by decide))
    (fun h => Json.noConfusion h) rfl rfl rfl

/-! ## Which headers the signature check accepts -/

/-- C9, counterexample: on the test platform, under the secret `key`, the
header made of the first digit of the digest, then `sha256=`, then the rest of
the digest is accepted, although it is neither the digest nor the digest
preceded by `sha256=`. -/
theorem isRequestSignatureValid_accepts_inner_prefix :
    Basic.isRequestSignatureValid testPlatform (some "key")
        (some "The quick brown fox jumps over the lazy dog")
        (some "fsha256=7bc83f430538424b13298e6aa6fb143ef4d59a14946175997479dbc2d1a3cd8")
      = .ok true ∧
    "fsha256=7bc83f430538424b13298e6aa6fb143ef4d59a14946175997479dbc2d1a3cd8"
      ≠ (testPlatform.hmacSha256Hex "key" "The quick brown fox jumps over the lazy dog").hex ∧
    "fsha256=7bc83f430538424b13298e6aa6fb143ef4d59a14946175997479dbc2d1a3cd8"
      ≠ "sha256=" ++
        (testPlatform.hmacSha256Hex "key" "The quick brown fox jumps over the lazy dog").hex := by
  refine ⟨?_, ?_, ?_⟩
  · decide
  · decide
  · decide

/-- C9, amended: with a configured app secret and a present header,
`isRequestSignatureValid` of `basic/index.js` returns `true` if and only if the
header is the lowercase hex HMAC-SHA256 digest of the raw body, or that digest
with the text `sha256=` inserted once at any position, the front included: the
first occurrence of `sha256=` is removed before the comparison. -/
theorem isRequestSignatureValid_accepts_iff (P : Platform) (secret body header : String)
    (hs : secret ≠ "") (hh : header ≠ "") :
    Basic.isRequestSignatureValid P (some secret) (some body) (some header) = .ok true ↔
      (header = (P.hmacSha256Hex secret body).hex ∨
        ∃ pre post : String, header = pre ++ "sha256=" ++ post ∧
          pre ++ post = (P.hmacSha256Hex secret body).hex) := by
  rw [isRequestSignatureValid_spec P secret body header hs hh,
    ← replaceFirst_eq_hexDigest_iff header (P.hmacSha256Hex secret body)]
  constructor
  · intro h
    by_cases hlen : (utf8Bytes (replaceFirst header "sha256=" "")).length = 64
    · simpa [hlen] using h
    · simp [hlen] at h
  · intro h
    have hlen : (utf8Bytes (replaceFirst header "sha256=" "")).length = 64 := by
      rw [h]
      exact hexDigest_utf8_length _
    rw [if_pos hlen, h]
    simp

/-- The statement of C9 as amended, on the test platform, for the header that
carries the digest after the prefix `sha256=`. -/
theorem isRequestSignatureValid_accepts_iff_witness :
    Basic.isRequestSignatureValid testPlatform (some "key")
        (some "The quick brown fox jumps over the lazy dog")
        (some "sha256=f7bc83f430538424b13298e6aa6fb143ef4d59a14946175997479dbc2d1a3cd8")
      = .ok true ↔
      ("sha256=f7bc83f430538424b13298e6aa6fb143ef4d59a14946175997479dbc2d1a3cd8"
          = (testPlatform.hmacSha256Hex "key" "The quick brown fox jumps over the lazy dog").hex ∨
        ∃ pre post : String,
          "sha256=f7bc83f430538424b13298e6aa6fb143ef4d59a14946175997479dbc2d1a3cd8"
            = pre ++ "sha256=" ++ post ∧
          pre ++ post
            = (testPlatform.hmacSha256Hex "key" "The quick brown fox jumps over the lazy dog").hex) :=
  isRequestSignatureValid_accepts_iff testPlatform "key"
    "The quick brown fox jumps over the lazy dog"
    "sha256=f7bc83f430538424b13298e6aa6fb143ef4d59a14946175997479dbc2d1a3cd8"
    (by decide) (by decide)

/-! ## The handler variants -/

/-- C11: with a configured app secret and no signature header (the header
undefined or empty), for every body `isRequestSignatureValid` of
`basic/index.js` returns `false`, while `isRequestSignatureValid` of
`bookAppoitment/src/server.js` and of `server copy.js` return `true`. -/
theorem missing_header_policies_disagree (P : Platform) (secret : String)
    (body header : Option String) (req : Request)
    (hs : secret ≠ "") (hmissing : strTruthy header = false)
    (hreq : req.get "x-hub-signature-256" = header) :
    Basic.isRequestSignatureValid P (some secret) body header = .ok false ∧
    Server.isRequestSignatureValid P (some secret) req = .ok true ∧
    ServerCopy.isRequestSignatureValid P (some secret) req = .ok true := by
  refine ⟨?_, ?_, ?_⟩
  · unfold Basic.isRequestSignatureValid
    simp only [strTruthy_some secret hs, hmissing]
  · unfold Server.isRequestSignatureValid
    simp only [strTruthy_some secret hs, hreq, hmissing]
  · unfold ServerCopy.isRequestSignatureValid
    simp only [strTruthy_some secret hs, hreq, hmissing]

/-- The statement of C11 under the secret `key`, for a request without headers. -/
theorem missing_header_policies_disagree_witness :
    Basic.isRequestSignatureValid testPlatform (some "key") (some "\x7b\x7d") none = .ok false ∧
    Server.isRequestSignatureValid testPlatform (some "key") ⟨fun _ => none, some "\x7b\x7d"⟩
      = .ok true ∧
    ServerCopy.isRequestSignatureValid testPlatform (some "key") ⟨fun _ => none, some "\x7b\x7d"⟩
      = .ok true :=
  missing_header_policies_disagree testPlatform "key" (some "\x7b\x7d") none
    ⟨fun _ => none, some "\x7b\x7d"⟩ (by decide) rfl rfl

/-- C13: for a decoded flow-data blob of at least 16 bytes, `decryptRequest`
takes the first `n - 16` bytes as ciphertext and the last 16 bytes as tag;
ciphertext and tag concatenate to the blob, the tag has 16 bytes, these are the
pieces `decryptFlowData` hands to the cipher, and the `slice` calls of
`whatsapp-flow-handler/index.js` give the same two pieces. -/
theorem flow_data_split (B : Buffer) (hB : 16 ≤ B.length) :
    bufferSubarray B 0 (some (-(Basic.TAG_LENGTH : Int))) = B.take (B.length - 16) ∧
    bufferSubarray B (-(Basic.TAG_LENGTH : Int)) none = B.drop (B.length - 16) ∧
    bufferSubarray B 0 (some (-(Basic.TAG_LENGTH : Int)))
      ++ bufferSubarray B (-(Basic.TAG_LENGTH : Int)) none = B ∧
    (bufferSubarray B (-(Basic.TAG_LENGTH : Int)) none).length = 16 ∧
    (bufferSubarray B 0 (some (-(Basic.TAG_LENGTH : Int)))).length = B.length - 16 ∧
    bufferSlice B 0 (some (-(WhatsappFlow.TAG_LENGTH : Int)))
      = bufferSubarray B 0 (some (-(Basic.TAG_LENGTH : Int))) ∧
    bufferSlice B (-(WhatsappFlow.TAG_LENGTH : Int)) none
      = bufferSubarray B (-(Basic.TAG_LENGTH : Int)) none ∧
    ∀ (P : Platform) (key iv : Buffer),
      Basic.decryptFlowData P key B iv =
        match P.aesGcmDecrypt key iv (B.take (B.length - 16)) (B.drop (B.length - 16)) with
        | .error e => .error e
        | .ok plain => P.jsonParse (P.utf8Decode plain) := by
  refine ⟨bufferSubarray_body B, bufferSubarray_tag B, ?_, ?_, ?_, rfl, rfl, ?_⟩
  · rw [bufferSubarray_body, bufferSubarray_tag, List.take_append_drop]
  · rw [bufferSubarray_tag, List.length_drop]
    omega
  · rw [bufferSubarray_body, List.length_take]
    omega
  · intro P key iv
    unfold Basic.decryptFlowData
    rw [bufferSubarray_body, bufferSubarray_tag]

/-- The statement of C13 at a blob of 18 bytes. -/
theorem flow_data_split_witness :
    bufferSubarray (List.range 18) 0 (some (-(Basic.TAG_LENGTH : Int))) = [0, 1] ∧
    bufferSubarray (List.range 18) (-(Basic.TAG_LENGTH : Int)) none
      = [2, 3, 4, 5, 6, 7, 8, 9, 10, 11, 12, 13, 14, 15, 16, 17] :=
  ⟨(flow_data_split (List.range 18) (by decide)).1,
    (flow_data_split (List.range 18) (by decide)).2.1⟩

/-- C15: for every decrypted body whose action is `"ping"`, `getNextScreen` of
`basic/index.js` returns exactly `{data: {status: "active"}}`, whatever the
other fields are, and does not throw. -/
theorem getNextScreen_ping (decryptedBody : Json)
    (haction : decryptedBody.prop "action" = some (.str "ping")) :
    Basic.getNextScreen decryptedBody = .ok (.obj [("data", .obj [("status", .str "active")])]) := by
  cases decryptedBody with
  | obj fields =>
    unfold Basic.getNextScreen
    simp only [haction, JsValue.isString, beq_self_eq_true, if_true]
  | null => simp [Json.prop] at haction
  | bool b => simp [Json.prop] at haction
  | num n => simp [Json.prop] at haction
  | str t => simp [Json.prop] at haction
  | arr items => simp [Json.prop] at haction

/-- The statement of C15 at a body that also carries a screen, a flow token and
a `data.error` field. -/
theorem getNextScreen_ping_witness :
    Basic.getNextScreen (.obj [("screen", .str "MY_SCREEN"),
        ("data", .obj [("error", .bool true)]), ("version", .str "3.0"),
        ("action", .str "ping"), ("flow_token", .str "t")])
      = .ok (.obj [("data", .obj [("status", .str "active")])]) :=
  getNextScreen_ping _ rfl

/-- C18: for every IV buffer the nonce built in `basic/index.js` (`~b` pushed
to an array, then `Buffer.from`) equals the nonce built in
`whatsapp-flow-handler/index.js` (`b ^ 0xFF` written into an allocated buffer),
and both are the byte-wise one's complement of the IV. -/
theorem nonce_transforms_agree (N : Buffer) (hN : BufferWF N) :
    Basic.responseNonce N = WhatsappFlow.flippedIV N ∧
    Basic.responseNonce N = N.map (fun b => 255 - b) ∧
    WhatsappFlow.flippedIV N = N.map (fun b => 255 - b) := by
  refine ⟨?_, responseNonce_eq_map N hN, flippedIV_eq_map N hN⟩
  rw [responseNonce_eq_map N hN, flippedIV_eq_map N hN]

/-- The statement of C18 at a 12-byte IV. -/
theorem nonce_transforms_agree_witness :
    BufferWF sampleIv ∧
    (Basic.responseNonce sampleIv = WhatsappFlow.flippedIV sampleIv ∧
      Basic.responseNonce sampleIv = sampleIv.map (fun b => 255 - b) ∧
      WhatsappFlow.flippedIV sampleIv = sampleIv.map (fun b => 255 - b)) :=
  ⟨by decide, nonce_transforms_agree sampleIv (by decide)⟩

/-- C19: with a configured app secret, `verifySignature` of `lamda-handler.js`
returns a boolean for every input (its `try` block catches every exception),
and it returns `true` if and only if the signature is exactly `sha256=`
followed by the lowercase hex HMAC-SHA256 digest of the body; a signature of
another length, the bare digest included, and a missing signature give `false`. -/
theorem verifySignature_accepts_iff (P : Platform) (secret body : String)
    (signature : Option String) (hs : secret ≠ "") :
    (Lambda.verifySignature P (some secret) (some body) signature = true ↔
      signature = some ("sha256=" ++ (P.hmacSha256Hex secret body).hex)) ∧
    (∀ received : String, received.length ≠ 71 →
      Lambda.verifySignature P (some secret) (some body) (some received) = false) ∧
    Lambda.verifySignature P (some secret) (some body) (some (P.hmacSha256Hex secret body).hex)
      = false ∧
    Lambda.verifySignature P (some secret) (some body) none = false := by
  have hiff := verifySignature_eq_true_iff P secret body
  refine ⟨hiff signature hs, ?_, ?_, ?_⟩
  · intro received hlen
    cases hv : Lambda.verifySignature P (some secret) (some body) (some received) with
    | false => rfl
    | true =>
      have h := (hiff (some received) hs).mp hv
      rw [Option.some.injEq] at h
      rw [h, expectedSignature_length] at hlen
      exact absurd rfl hlen
  · cases hv : Lambda.verifySignature P (some secret) (some body)
        (some (P.hmacSha256Hex secret body).hex) with
    | false => rfl
    | true =>
      have h := (hiff _ hs).mp hv
      rw [Option.some.injEq] at h
      have hl := congrArg String.length h
      have h64 : (P.hmacSha256Hex secret body).hex.length = 64 :=
        (P.hmacSha256Hex secret body).length_eq
      rw [expectedSignature_length, h64] at hl
      omega
  · cases hv : Lambda.verifySignature P (some secret) (some body) none with
    | false => rfl
    | true => exact absurd ((hiff none hs).mp hv) (by simp)

/-- The statement of C19 on the test platform, under the secret `key`, for the
signature that carries the digest of the body. -/
theorem verifySignature_accepts_iff_witness :
    Lambda.verifySignature testPlatform (some "key") (some "\x7b\x7d")
      (some "sha256=a777724d943eb48dc69bca8a4a6d57a04db3f9ec7e1de4e581e860265bdf3032") = true :=
  ((verifySignature_accepts_iff testPlatform "key" "\x7b\x7d"
    (some "sha256=a777724d943eb48dc69bca8a4a6d57a04db3f9ec7e1de4e581e860265bdf3032")
    (by decide)).1).mpr rfl

/-! ## Business-logic failures -/

/-- C14: for every request that passes verification and decryption and whose
plaintext `getNextScreen` does not handle (the action is not `"ping"`,
`data.error` is falsy, the action is not `"INIT"`, and it is not the action
`"data_exchange"` on the screen `"MY_SCREEN"`), `getNextScreen` throws and the
handler of `basic/index.js` returns `{statusCode: 500, body: 'Server error'}`;
`encryptResponse` is not called. -/
theorem handler_business_failure_is_500 (P : Platform) (env : Env) (event : Event)
    (parsed : Json) (calls : List Call) (request : DecryptedRequest)
    (hv : Basic.VerifiedPost P env event parsed)
    (hdec : Basic.decryptRequest P (some parsed) env.PRIVATE_KEY env.PASSPHRASE
      = ⟨calls, .ok request⟩)
    (hping : (request.decryptedBody.prop "action").isString "ping" = false)
    (herr : ((request.decryptedBody.prop "data").optProp "error").truthy = false)
    (hinit : (request.decryptedBody.prop "action").isString "INIT" = false)
    (hexch : ((request.decryptedBody.prop "action").isString "data_exchange"
      && (request.decryptedBody.prop "screen").isString "MY_SCREEN") = false) :
    (∃ e, Basic.getNextScreen request.decryptedBody = .error e) ∧
    Basic.handler P env event
      = ⟨[.decryptRequest, .createPrivateKey, .privateDecrypt, .aesGcmDecrypt, .getNextScreen],
          ⟨500, [], some "Server error"⟩⟩ ∧
    Call.encryptResponse ∉ (Basic.handler P env event).calls := by
  obtain ⟨e, he⟩ := getNextScreen_unhandled request.decryptedBody hping herr hinit hexch
  have hcalls := decryptRequest_ok_calls P _ _ _ calls request hdec
  have hres : Basic.handler P env event
      = ⟨[.decryptRequest, .createPrivateKey, .privateDecrypt, .aesGcmDecrypt, .getNextScreen],
          ⟨500, [], some "Server error"⟩⟩ := by
    rw [handler_of_verifiedPost P env event parsed hv]
    unfold Basic.handleFlow
    rw [hdec]
    simp only [he, Basic.catchAll, hcalls, List.cons_append, List.nil_append]
  refine ⟨⟨e, he⟩, hres, ?_⟩
  rw [hres]
  decide

/-- The statement of C14 on the test platform: the plaintext is an empty JSON
object, which `getNextScreen` does not handle. -/
theorem handler_business_failure_is_500_witness :
    (∃ e, Basic.getNextScreen (.obj []) = .error e) ∧
    Basic.handler testPlatform testEnv
        (postEvent (envelopeText "k" emptyObjectWire) ("sha256=" ++ digestEmptyObjectEnvelope.hex))
      = ⟨[.decryptRequest, .createPrivateKey, .privateDecrypt, .aesGcmDecrypt, .getNextScreen],
          ⟨500, [], some "Server error"⟩⟩ ∧
    Call.encryptResponse ∉ (Basic.handler testPlatform testEnv
        (postEvent (envelopeText "k" emptyObjectWire)
          ("sha256=" ++ digestEmptyObjectEnvelope.hex))).calls :=
  handler_business_failure_is_500 testPlatform testEnv _ (envelopeJson "k" emptyObjectWire)
    [.decryptRequest, .createPrivateKey, .privateDecrypt, .aesGcmDecrypt]
    ⟨.obj [], List.replicate 16 1, testPlatform.base64Decode "AAAAAAAAAAAA"⟩
    (verifiedPost_postEvent testPlatform testEnv _ _ _ rfl (by decide))
    rfl rfl rfl rfl rfl

/-! ## The handler of `whatsapp-flow-handler/index.js`: failures and health check -/

/-- C12, counterexample: on the test platform, the handler of
`whatsapp-flow-handler/index.js` answers an envelope without its three fields
with status 400 and the body `Invalid request format`, and answers a key blob
that does not unwrap and a tag that does not verify with status 421 and the
body `Decryption error`. -/
theorem whatsapp_malformed_envelope_not_421 :
    WhatsappFlow.handler testPlatform "PEM" (postEvent "\x7b\x7d" "")
      = ⟨400, [], some "\x7b\"error\":\"Invalid request format\"\x7d"⟩ ∧
    WhatsappFlow.handler testPlatform "PEM" (postEvent (envelopeText "x" pingWire) "")
      = ⟨421, [], some "\x7b\"error\":\"Decryption error\"\x7d"⟩ ∧
    WhatsappFlow.handler testPlatform "PEM" (postEvent (envelopeText "k" badTagWire) "")
      = ⟨421, [], some "\x7b\"error\":\"Decryption error\"\x7d"⟩ := by
  refine ⟨?_, ?_, ?_⟩
  · decide
  · decide
  · decide

/-- C12, amended: in `whatsapp-flow-handler/index.js`, for a `POST` whose body
parses to an envelope, a key-unwrap failure and a tag mismatch (every failure
of the decryption block) yield the same status code 421 and the same body
`{"error":"Decryption error"}`; an envelope that lacks `encrypted_aes_key`,
`encrypted_flow_data` or `initial_vector` yields status 400 and the body
`{"error":"Invalid request format"}`. -/
theorem whatsapp_decryption_failures (P : Platform) (key : String) (event : Event)
    (envelope : Json) (hp : WhatsappFlow.PostsEnvelope P event envelope) :
    (¬ WhatsappFlow.FieldsPresent envelope →
      WhatsappFlow.handler P key event
        = ⟨400, [], some (P.jsonStringify (.obj [("error", .str "Invalid request format")]))⟩) ∧
    (WhatsappFlow.FieldsPresent envelope →
      ∀ e, WhatsappFlow.decryptEnvelope P key (envelope.prop "encrypted_aes_key")
          (envelope.prop "encrypted_flow_data") (envelope.prop "initial_vector") = .error e →
        WhatsappFlow.handler P key event
          = ⟨421, [], some (P.jsonStringify (.obj [("error", .str "Decryption error")]))⟩) ∧
    (∀ (blob : Buffer) (e : LibError),
      bufferFromBase64 P (envelope.prop "encrypted_aes_key") = .ok blob →
      WhatsappFlow.privateDecryptPem P key blob = .error e →
      WhatsappFlow.decryptEnvelope P key (envelope.prop "encrypted_aes_key")
        (envelope.prop "encrypted_flow_data") (envelope.prop "initial_vector") = .error e) ∧
    (∀ (blob aesKey iv flowData : Buffer) (e : LibError),
      bufferFromBase64 P (envelope.prop "encrypted_aes_key") = .ok blob →
      WhatsappFlow.privateDecryptPem P key blob = .ok aesKey →
      bufferFromBase64 P (envelope.prop "initial_vector") = .ok iv →
      bufferFromBase64 P (envelope.prop "encrypted_flow_data") = .ok flowData →
      P.aesGcmDecrypt aesKey iv (flowData.take (flowData.length - 16))
        (flowData.drop (flowData.length - 16)) = .error e →
      WhatsappFlow.decryptEnvelope P key (envelope.prop "encrypted_aes_key")
        (envelope.prop "encrypted_flow_data") (envelope.prop "initial_vector") = .error e) := by
  have htry := whatsapp_handlerTry_of_postsEnvelope P key event envelope hp
  refine ⟨?_, ?_, ?_, ?_⟩
  · intro hmissing
    unfold WhatsappFlow.handler
    rw [htry]
    unfold WhatsappFlow.handleEnvelope
    unfold WhatsappFlow.FieldsPresent at hmissing
    cases ha : (envelope.prop "encrypted_aes_key").truthy <;>
      cases hb : (envelope.prop "encrypted_flow_data").truthy <;>
      cases hc : (envelope.prop "initial_vector").truthy <;>
      simp [ha, hb, hc] at hmissing ⊢
  · intro hf e hdec
    unfold WhatsappFlow.handler
    rw [htry, whatsapp_handleEnvelope_present P key envelope hf, hdec]
  · intro blob e hblob hrsa
    unfold WhatsappFlow.decryptEnvelope
    simp only [hblob, hrsa]
  · intro blob aesKey iv flowData e hblob hrsa hiv hflow htag
    have hbody : bufferSlice flowData 0 (some (-(WhatsappFlow.TAG_LENGTH : Int)))
        = flowData.take (flowData.length - 16) := bufferSubarray_body flowData
    have htagSlice : bufferSlice flowData (-(WhatsappFlow.TAG_LENGTH : Int)) none
        = flowData.drop (flowData.length - 16) := bufferSubarray_tag flowData
    unfold WhatsappFlow.decryptEnvelope
    simp only [hblob, hrsa, hiv, hflow, hbody, htagSlice, htag]

/-- The statement of C12 as amended, on the test platform, for the envelope
whose key blob does not unwrap. -/
theorem whatsapp_decryption_failures_witness :
    WhatsappFlow.handler testPlatform "PEM" (postEvent (envelopeText "x" pingWire) "")
      = ⟨421, [],
          some (testPlatform.jsonStringify (.obj [("error", .str "Decryption error")]))⟩ :=
  (whatsapp_decryption_failures testPlatform "PEM" (postEvent (envelopeText "x" pingWire) "")
    (envelopeJson "x" pingWire)
    (whatsapp_postsEnvelope_postEvent testPlatform _ _ _ (fun h => Json.noConfusion h) rfl)).2.1
    ⟨rfl, rfl, rfl⟩ (.cryptoError "ERR_OSSL_RSA_OAEP_DECODING_ERROR") rfl

/-- C16, counterexample: on the test platform, the envelope that decrypts to
the plaintext `{action: "ping"}` is answered with status 200 and the encrypted
reply `{error: "Unsupported version"}`, which is not the encryption of
`{data: {status: "active"}}`. -/
theorem whatsapp_ping_without_version :
    WhatsappFlow.decryptEnvelope testPlatform "PEM" (some (.str "k")) (some (.str pingWire))
        (some (.str "AAAAAAAAAAAA"))
      = .ok ⟨.obj [("action", .str "ping")], List.replicate 16 1,
          testPlatform.base64Decode "AAAAAAAAAAAA"⟩ ∧
    WhatsappFlow.handler testPlatform "PEM" (postEvent (envelopeText "k" pingWire) "")
      = ⟨200, [("Content-Type", "text/plain")],
          some "|#fssps#;#Votvqqpsufe!wfstjpo#~TTTTTTTTTTTTTTTT"⟩ ∧
    WhatsappFlow.encryptReply testPlatform (.obj [("error", .str "Unsupported version")])
        (List.replicate 16 1) (testPlatform.base64Decode "AAAAAAAAAAAA")
      = .ok "|#fssps#;#Votvqqpsufe!wfstjpo#~TTTTTTTTTTTTTTTT" ∧
    WhatsappFlow.encryptReply testPlatform activeReply (List.replicate 16 1)
        (testPlatform.base64Decode "AAAAAAAAAAAA")
      = .ok "|#ebub#;|#tubuvt#;#bdujwf#~~TTTTTTTTTTTTTTTT" := by
  refine ⟨rfl, ?_, ?_, ?_⟩
  · decide
  · decide
  · decide

/-- C16, amended: in `whatsapp-flow-handler/index.js`, when a valid envelope
decrypts to a plaintext whose version is `"3.0"` and whose action is `"ping"`,
the reply the handler encrypts and returns with status 200 is exactly
`{data: {status: "active"}}`. -/
theorem whatsapp_ping_reply (P : Platform) (key : String) (event : Event) (envelope : Json)
    (request : DecryptedRequest) (wire : String)
    (hp : WhatsappFlow.PostsEnvelope P event envelope)
    (hf : WhatsappFlow.FieldsPresent envelope)
    (hdec : WhatsappFlow.decryptEnvelope P key (envelope.prop "encrypted_aes_key")
      (envelope.prop "encrypted_flow_data") (envelope.prop "initial_vector") = .ok request)
    (hversion : request.decryptedBody.prop "version" = some (.str "3.0"))
    (haction : request.decryptedBody.prop "action" = some (.str "ping"))
    (henc : WhatsappFlow.encryptReply P (.obj [("data", .obj [("status", .str "active")])])
      request.aesKeyBuffer request.initialVectorBuffer = .ok wire) :
    WhatsappFlow.handler P key event = ⟨200, [("Content-Type", "text/plain")], some wire⟩ := by
  unfold WhatsappFlow.handler
  rw [whatsapp_handlerTry_of_postsEnvelope P key event envelope hp,
    whatsapp_handleEnvelope_present P key envelope hf, hdec]
  obtain ⟨decryptedBody, aesKeyBuffer, initialVectorBuffer⟩ := request
  cases decryptedBody with
  | obj fields =>
    simp only at hversion haction henc
    simp only [hversion, haction, JsValue.isString, beq_self_eq_true, Bool.not_true,
      Bool.false_eq_true, if_false, if_true, henc]
  | null => simp [Json.prop] at hversion
  | bool b => simp [Json.prop] at hversion
  | num n => simp [Json.prop] at hversion
  | str t => simp [Json.prop] at hversion
  | arr items => simp [Json.prop] at hversion

/-- The statement of C16 as amended, on the test platform, for the envelope
that decrypts to `{version: "3.0", action: "ping"}`. -/
theorem whatsapp_ping_reply_witness :
    WhatsappFlow.handler testPlatform "PEM" (postEvent (envelopeText "k" pingV3Wire) "")
      = ⟨200, [("Content-Type", "text/plain")],
          some "|#ebub#;|#tubuvt#;#bdujwf#~~TTTTTTTTTTTTTTTT"⟩ :=
  whatsapp_ping_reply testPlatform "PEM" (postEvent (envelopeText "k" pingV3Wire) "")
    (envelopeJson "k" pingV3Wire)
    ⟨.obj [("version", .str "3.0"), ("action", .str "ping")], List.replicate 16 1,
      testPlatform.base64Decode "AAAAAAAAAAAA"⟩
    "|#ebub#;|#tubuvt#;#bdujwf#~~TTTTTTTTTTTTTTTT"
    (whatsapp_postsEnvelope_postEvent testPlatform _ _ _ (fun h => Json.noConfusion h) rfl)
    ⟨rfl, rfl, rfl⟩ rfl rfl rfl (by decide)

/-! ## The signature failure in `lamda-handler.js` -/

/-- C17, counterexample: on the test platform, under the secret `key`, a `POST`
whose signature header carries the digest of another body is answered by
`handlePostRequest` with status 200 and the body
`{"status":"error - invalid signature"}`, not with status 432. -/
theorem handlePostRequest_invalid_signature_not_432 :
    Lambda.verifySignature testPlatform (some "key") (some "\x7b\x7d")
        (some "sha256=f7bc83f430538424b13298e6aa6fb143ef4d59a14946175997479dbc2d1a3cd8")
      = false ∧
    Lambda.handlePostRequest testPlatform (some "key")
        (postEvent "\x7b\x7d"
          "sha256=f7bc83f430538424b13298e6aa6fb143ef4d59a14946175997479dbc2d1a3cd8")
      = ⟨200, [], some "\x7b\"status\":\"error - invalid signature\"\x7d"⟩ := by
  constructor
  · decide
  · decide

/-- C17, amended: in `lamda-handler.js`, when an app secret is configured and
the signature header is present but is not `sha256=` followed by the
HMAC-SHA256 of the body, `handlePostRequest` answers with status code 200 and
the body `{"status":"error - invalid signature"}`. -/
theorem handlePostRequest_invalid_signature_is_200 (P : Platform) (secret : String)
    (event : Event) (headers : List (String × String)) (signature : String)
    (hs : secret ≠ "") (hheaders : event.headers = some headers)
    (hsig : strOr (headers.lookup "x-hub-signature-256") (headers.lookup "X-Hub-Signature-256")
      = some signature)
    (hpresent : signature ≠ "")
    (hmismatch : signature ≠ "sha256=" ++ (P.hmacSha256Hex secret (Lambda.getBody P event)).hex) :
    Lambda.handlePostRequest P (some secret) event
      = ⟨200, [], some (P.jsonStringify (.obj [("status", .str "error - invalid signature")]))⟩ := by
  have hfalse : Lambda.verifySignature P (some secret) (some (Lambda.getBody P event))
      (some signature) = false := by
    cases hv : Lambda.verifySignature P (some secret) (some (Lambda.getBody P event))
        (some signature) with
    | false => rfl
    | true =>
      have h := (verifySignature_eq_true_iff P secret _ (some signature) hs).mp hv
      rw [Option.some.injEq] at h
      exact absurd h hmismatch
  unfold Lambda.handlePostRequest
  simp only [hheaders, hsig, strTruthy_some signature hpresent, hfalse, Bool.not_false,
    Bool.and_self, if_true]

/-- The statement of C17 as amended, on the test platform, under the secret
`key`. -/
theorem handlePostRequest_invalid_signature_is_200_witness :
    Lambda.handlePostRequest testPlatform (some "key")
        (postEvent "\x7b\x7d"
          "sha256=f7bc83f430538424b13298e6aa6fb143ef4d59a14946175997479dbc2d1a3cd8")
      = ⟨200, [],
          some (testPlatform.jsonStringify (.obj [("status", .str "error - invalid signature")]))⟩ :=
  handlePostRequest_invalid_signature_is_200 testPlatform "key" _
    [("x-hub-signature-256",
      "sha256=f7bc83f430538424b13298e6aa6fb143ef4d59a14946175997479dbc2d1a3cd8")]
    "sha256=f7bc83f430538424b13298e6aa6fb143ef4d59a14946175997479dbc2d1a3cd8"
    (by decide) rfl (by decide) (by decide) (by decide)

end FlowWebhook
